import Mathlib

/-!
# Cockroach operator: the deploy actor and the annotated create-or-update

A shallow embedding of `pkg/actor/deploy.go` and of the reconcile helpers of
`pkg/kube/helpers.go`.

Conventions of the embedding.

* Go `error` values are the inductive `Error`; `nil` is `Option.none`.
* Effects are made explicit.  A function that talks to the object store takes the
  store state and returns the new one, and every call that matters for the
  properties below is recorded in a trace returned next to the result.
* Interfaces and package-level collaborators that are implemented outside this
  repository (`client.Client`, the `patch.Annotator`, the `patch.PatchMaker`) are
  parameters of the embedded functions, exactly as `c client.Client` is a parameter
  of the Go code.
-/

set_option autoImplicit false

namespace CockroachOperator

/-! ## Errors -/

/-- Go `error` values.  `Errorf` stands for `fmt.Errorf`/`errors.New` values carrying a
message, `Wrap cause msg` for `errors.Wrap(cause, msg)` of `github.com/pkg/errors`; the
three first constructors are the API status errors the helpers distinguish. -/
inductive Error where
  | NotFound
  | Conflict
  | AlreadyExists
  | Errorf (msg : String)
  | Wrap (cause : Error) (msg : String)
  deriving DecidableEq, Repr

namespace errors

/-- `errors.Wrap(err, message)` for a non-nil `err`: a new error that keeps `err` as its
cause and carries `message`. -/
def Wrap (err : Error) (message : String) : Error := Error.Wrap err message

end errors

namespace apierrors

/-- `apierrors.IsNotFound(err)`: whether the reason of the error is not-found. The reason
is looked for with `errors.As`, that is through the causes of wrapped errors, so a
not-found error wrapped by `errors.Wrap` is still a not-found error. -/
def IsNotFound : Error → Bool
  | Error.NotFound => true
  | Error.Wrap cause _ => IsNotFound cause
  | _ => false

end apierrors

/-! ## `pkg/actor/deploy.go` -/

namespace actor

/-- The four resource builders `deploy.Act` hands to `resource.Reconciler`. -/
inductive Builder where
  | DiscoveryServiceBuilder
  | PublicServiceBuilder
  | StatefulSetBuilder
  | PdbBuilder
  deriving DecidableEq, Repr

/-- The part of `resource.Cluster` that `deploy.Act` reads: `cluster.Spec().Nodes`, an
`int32` in the source; only its comparison with `1` is used. -/
structure Cluster where
  Nodes : Int
  deriving DecidableEq, Repr

/-- What one `Reconciler.Reconcile()` call gives back: the pair `(changed, err)` of the
source together with the state of the world after the call. -/
structure ReconcileResult (W : Type) where
  changed : Bool
  err : Option Error
  world : W

/-- Observable steps of one `Act` call: a `Reconcile()` of a builder with the pair it
returned, and an invocation of `CancelLoop(ctx)`. -/
inductive Event where
  | Reconcile (b : Builder) (changed : Bool) (err : Option Error)
  | CancelLoop
  deriving DecidableEq, Repr

/-- Result of `deploy.Act`: the returned error, the world after the call and the trace of
reconciles and cancellations, in the order in which they happened. -/
structure ActResult (W : Type) where
  err : Option Error
  world : W
  trace : List Event

namespace deploy

/-- `deploy.Act`.  `reconcile b w` is `(resource.Reconciler{Builder: b, ...}).Reconcile()`
run in world `w`; the four calls, the error wrapping, the `CancelLoop` calls and the
`cluster.Spec().Nodes > 1` guard follow the source statement by statement. -/
def Act {W : Type} (reconcile : Builder → W → ReconcileResult W) (cluster : Cluster)
    (w : W) : ActResult W :=
  let r1 := reconcile Builder.DiscoveryServiceBuilder w
  let t1 := [Event.Reconcile Builder.DiscoveryServiceBuilder r1.changed r1.err]
  match r1.err with
  | some err => ⟨some (errors.Wrap err "failed to reconcile discovery service"), r1.world, t1⟩
  | none =>
    if r1.changed then ⟨none, r1.world, t1 ++ [Event.CancelLoop]⟩
    else
      let r2 := reconcile Builder.PublicServiceBuilder r1.world
      let t2 := t1 ++ [Event.Reconcile Builder.PublicServiceBuilder r2.changed r2.err]
      match r2.err with
      | some err => ⟨some (errors.Wrap err "failed to reconcile public service"), r2.world, t2⟩
      | none =>
        if r2.changed then ⟨none, r2.world, t2 ++ [Event.CancelLoop]⟩
        else
          let r3 := reconcile Builder.StatefulSetBuilder r2.world
          let t3 := t2 ++ [Event.Reconcile Builder.StatefulSetBuilder r3.changed r3.err]
          match r3.err with
          | some err => ⟨some (errors.Wrap err "failed to reconcile statefulset"), r3.world, t3⟩
          | none =>
            if r3.changed then ⟨none, r3.world, t3 ++ [Event.CancelLoop]⟩
            else if cluster.Nodes > 1 then
              let r4 := reconcile Builder.PdbBuilder r3.world
              let t4 := t3 ++ [Event.Reconcile Builder.PdbBuilder r4.changed r4.err]
              match r4.err with
              | some err => ⟨some (errors.Wrap err "failed to reconcile pdb"), r4.world, t4⟩
              | none =>
                if r4.changed then ⟨none, r4.world, t4 ++ [Event.CancelLoop]⟩
                else ⟨none, r4.world, t4⟩
            else ⟨none, r3.world, t3⟩

end deploy

/-- The message `deploy.Act` wraps a reconcile error of builder `b` with. -/
def wrapMessage : Builder → String
  | Builder.DiscoveryServiceBuilder => "failed to reconcile discovery service"
  | Builder.PublicServiceBuilder => "failed to reconcile public service"
  | Builder.StatefulSetBuilder => "failed to reconcile statefulset"
  | Builder.PdbBuilder => "failed to reconcile pdb"

/-- A reconcile event that reports `changed = false` and no error. -/
def Event.isQuiet : Event → Bool
  | Event.Reconcile _ false none => true
  | _ => false

/-- The builders reconciled in a trace, in order. -/
def attempted : List Event → List Builder
  | [] => []
  | Event.Reconcile b _ _ :: t => b :: attempted t
  | Event.CancelLoop :: t => attempted t

/-- A reconcile function for examples: the outcome of each builder is read off a table,
and the world counts the reconciles made. -/
def tableReconcile (table : Builder → Bool × Option Error) (b : Builder) (w : Nat) :
    ReconcileResult Nat :=
  ⟨(table b).1, (table b).2, w + 1⟩

/-- Every builder reports `changed = false` and no error. -/
def quietTable : Builder → Bool × Option Error := fun _ => (false, none)

/-- Only builder `b` reports a change; the others report `changed = false`, no error. -/
def changedAt (b : Builder) : Builder → Bool × Option Error :=
  fun b' => if b' = b then (true, none) else (false, none)

/-- Only builder `b` fails, with error `e`; the others report `changed = false`, no
error. -/
def failsAt (b : Builder) (e : Error) : Builder → Bool × Option Error :=
  fun b' => if b' = b then (false, some e) else (false, none)

/-- The order in which `deploy.Act` goes through the builders for a cluster: the three
unconditional reconciles, then the pod disruption budget when the guard
`cluster.Spec().Nodes > 1` holds. -/
def builderOrder (cluster : Cluster) : List Builder :=
  [Builder.DiscoveryServiceBuilder, Builder.PublicServiceBuilder, Builder.StatefulSetBuilder] ++
    (if cluster.Nodes > 1 then [Builder.PdbBuilder] else [])

/-- The early-return chain of `deploy.Act` written as one loop over a list of builders.
`Act_eq_runBuilders` proves that the statement-by-statement embedding `deploy.Act`
computes exactly this loop over `builderOrder cluster`; the loop is only used to reason
by induction. -/
def runBuilders {W : Type} (reconcile : Builder → W → ReconcileResult W) :
    List Builder → W → ActResult W
  | [], w => ⟨none, w, []⟩
  | b :: bs, w =>
    let r := reconcile b w
    match r.err with
    | some err =>
      ⟨some (errors.Wrap err (wrapMessage b)), r.world, [Event.Reconcile b r.changed r.err]⟩
    | none =>
      if r.changed then ⟨none, r.world, [Event.Reconcile b r.changed r.err, Event.CancelLoop]⟩
      else
        let rest := runBuilders reconcile bs r.world
        ⟨rest.err, rest.world, Event.Reconcile b r.changed r.err :: rest.trace⟩

/-- The three ways a pass over the builders `bs` can end, as a property of the returned
error and the trace: after a run `q` of reconciles that all reported no change and no
error, either every builder of `bs` has been reconciled (convergence), or the next
builder failed and its wrapped error is returned, or the next builder reported a change
and `CancelLoop` was called. -/
def Ending (bs : List Builder) (err : Option Error) (trace : List Event) : Prop :=
  ∃ q : List Event, (∀ e ∈ q, e.isQuiet = true) ∧
    ((err = none ∧ trace = q ∧ attempted q = bs) ∨
     (∃ b c e, err = some (errors.Wrap e (wrapMessage b)) ∧
        trace = q ++ [Event.Reconcile b c (some e)] ∧ attempted q ++ [b] <+: bs) ∨
     (∃ b, err = none ∧ trace = q ++ [Event.Reconcile b true none, Event.CancelLoop] ∧
        attempted q ++ [b] <+: bs))

/-- The world after the builders `bs` have been reconciled one after the other, starting
in world `w`. -/
def worldAfter {W : Type} (reconcile : Builder → W → ReconcileResult W) :
    List Builder → W → W
  | [], w => w
  | b :: bs, w => worldAfter reconcile bs (reconcile b w).world

/-- Every builder of `bs`, reconciled one after the other starting in world `w`, returns
`changed = false` and no error. -/
def quietAlong {W : Type} (reconcile : Builder → W → ReconcileResult W) :
    List Builder → W → Prop
  | [], _ => True
  | b :: bs, w =>
    (reconcile b w).changed = false ∧ (reconcile b w).err = none ∧
      quietAlong reconcile bs (reconcile b w).world

/-- The events of reconciles of the builders `bs` that all returned `changed = false` and
no error. -/
def quietEvents (bs : List Builder) : List Event :=
  bs.map (fun b => Event.Reconcile b false none)

end actor

/-! ## `deploy.Handles` -/

namespace api

/-- `api.ClusterConditionType`: the two condition types `deploy.Handles` names, and any
other type. -/
inductive ClusterConditionType where
  | InitializedCondition
  | CrdbVersionChecked
  | Other (name : String)
  deriving DecidableEq, Repr

/-- `metav1.ConditionStatus`. -/
inductive ConditionStatus where
  | ConditionTrue
  | ConditionFalse
  | ConditionUnknown
  deriving DecidableEq, Repr

/-- `api.ClusterCondition`, reduced to its `Type` (here `Type_`) and its `Status`. -/
structure ClusterCondition where
  Type_ : ClusterConditionType
  Status : ConditionStatus
  deriving DecidableEq, Repr

end api

namespace condition

/-- Modelled from the spec: the condition lookup behind `condition.True` and
`condition.False` of `pkg/condition`, which is not among the sources. The conditions are
keyed by type, one status per type, and the lookup is three-valued: the status recorded
for the type, or nothing when no condition of that type is present. In a list, the
condition of a type is the first entry of that type. -/
def lookup (ctype : api.ClusterConditionType) (conds : List api.ClusterCondition) :
    Option api.ConditionStatus :=
  match conds with
  | [] => none
  | c :: rest => if c.Type_ = ctype then some c.Status else lookup ctype rest

/-- Modelled from the spec: `condition.True` of `pkg/condition`, which is not among the
sources: the condition of that type is present with status `True`. -/
def True (ctype : api.ClusterConditionType) (conds : List api.ClusterCondition) : Bool :=
  decide (lookup ctype conds = some api.ConditionStatus.ConditionTrue)

/-- Modelled from the spec: `condition.False` of `pkg/condition`, which is not among the
sources: the condition of that type is present with status `False`; an absent condition
is not `False`. -/
def False (ctype : api.ClusterConditionType) (conds : List api.ClusterCondition) : Bool :=
  decide (lookup ctype conds = some api.ConditionStatus.ConditionFalse)

end condition

namespace actor

namespace deploy

/-- `deploy.Handles`. `crdbVersionValidator` is the value of
`utilfeature.DefaultMutableFeatureGate.Enabled(features.CrdbVersionValidator)`. -/
def Handles (crdbVersionValidator : Bool) (conds : List api.ClusterCondition) : Bool :=
  if crdbVersionValidator then
    (condition.True api.ClusterConditionType.InitializedCondition conds ||
      condition.False api.ClusterConditionType.InitializedCondition conds) &&
    condition.True api.ClusterConditionType.CrdbVersionChecked conds
  else
    (condition.True api.ClusterConditionType.InitializedCondition conds ||
      condition.False api.ClusterConditionType.InitializedCondition conds)

end deploy

end actor

/-! ## `pkg/kube/helpers.go`: the annotated create-or-update -/

namespace kube

/-- The constant `LastAppliedAnnotation`. -/
def LastAppliedAnnotation : String := "crdb.io/last-applied"

/-- `client.ObjectKey`, that is `types.NamespacedName`. -/
structure ObjectKey where
  Namespace : String
  Name : String
  deriving DecidableEq, Repr

/-- `types.NamespacedName.String()`: the namespace, the separator `/`, the name. -/
def ObjectKey.String (n : ObjectKey) : String := n.Namespace ++ "/" ++ n.Name

/-- The Go type behind a `client.Object`, as far as the type switch of
`CreateOrUpdateAnnotated` tells types apart. -/
inductive ObjectType where
  | Service
  | StatefulSet
  | PodDisruptionBudget
  | Other
  deriving DecidableEq, Repr

/-- A `client.Object`: its Go type, its namespace and name, its annotations, and its spec
and status, which the helpers never look into and which are kept as serialized text. -/
structure Object where
  GoType : ObjectType
  Namespace : String
  Name : String
  Annotations : List (String × String)
  Spec : String
  Status : String
  deriving DecidableEq, Repr

/-- `client.ObjectKeyFromObject(obj)`. -/
def ObjectKeyFromObject (obj : Object) : ObjectKey := ⟨obj.Namespace, obj.Name⟩

/-- `MutateFn`: a `func() error` closed over the object; here it takes the object and
returns the mutated object, or the error. -/
abbrev MutateFn := Object → Except Error Object

/-- The `client.Client` interface as used here, over a store state `σ`. `Get` reads the
object under a key into `obj`; `Create` and `Update` return the error, if any, and the
store after the call. -/
structure Client (σ : Type) where
  Get : σ → ObjectKey → Object → Except Error Object
  Create : σ → Object → Option Error × σ
  Update : σ → Object → Option Error × σ

/-- `patch.CalculateOption` values used by `CreateOrUpdateAnnotated`. -/
inductive CalculateOption where
  | IgnoreStatusFields
  | IgnoreVolumeClaimTemplateTypeMetaAndStatus
  deriving DecidableEq, Repr

/-- `patch.PatchResult`, reduced to what `IsEmpty()` answers. -/
structure PatchResult where
  IsEmpty : Bool
  deriving DecidableEq, Repr

/-- The package-level `annotator` (`patch.NewAnnotator(LastAppliedAnnotation)`). -/
structure Annotator where
  SetLastAppliedAnnotation : Object → Except Error Object

/-- The package-level `patchMaker` (`patch.NewPatchMaker(annotator)`). -/
structure PatchMaker where
  Calculate : Object → Object → List CalculateOption → Except Error PatchResult

/-- Calls made by `CreateOrUpdateAnnotated`, with their arguments and the error they
returned. -/
inductive Call where
  | Get (key : ObjectKey) (err : Option Error)
  | Mutate (err : Option Error)
  | SetLastAppliedAnnotation (obj : Object) (err : Option Error)
  | Calculate (existing obj : Object) (opts : List CalculateOption) (err : Option Error)
  | Create (obj : Object) (err : Option Error)
  | Update (obj : Object) (err : Option Error)
  deriving DecidableEq, Repr

/-- A write issued to the store: a `Create` or an `Update` call. -/
def Call.isWrite : Call → Bool
  | Call.Create _ _ => true
  | Call.Update _ _ => true
  | _ => false

/-- A write that the store accepted: a `Create` or an `Update` that returned `nil`. -/
def Call.isSuccessfulWrite : Call → Bool
  | Call.Create _ none => true
  | Call.Update _ none => true
  | _ => false

/-- What `CreateOrUpdateAnnotated` returns, `(upserted, err)`, with the store after the
call and the calls made, in order. -/
structure Result (σ : Type) where
  upserted : Bool
  err : Option Error
  store : σ
  calls : List Call

/-- `mutate`: runs `f`, then refuses a change of the object key, compared through
`String()` as in the source. -/
def mutate (f : MutateFn) (key : ObjectKey) (obj : Object) : Except Error Object :=
  match f obj with
  | Except.error err => Except.error err
  | Except.ok obj1 =>
    let newKey := ObjectKeyFromObject obj1
    if key.String ≠ newKey.String then
      Except.error (Error.Errorf "MutateFn cannot mutate object name and/or object namespace")
    else Except.ok obj1

/-- The `opts` handed to `patchMaker.Calculate`: `IgnoreStatusFields`, and for a
`*appsv1.StatefulSet` also `IgnoreVolumeClaimTemplateTypeMetaAndStatus`. -/
def calculateOptions (obj : Object) : List CalculateOption :=
  [CalculateOption.IgnoreStatusFields] ++
    (match obj.GoType with
     | ObjectType.StatefulSet => [CalculateOption.IgnoreVolumeClaimTemplateTypeMetaAndStatus]
     | _ => [])

/-- `CreateOrUpdateAnnotated`, statement by statement. `s` is the store before the
call. -/
def CreateOrUpdateAnnotated {σ : Type} (annotator : Annotator) (patchMaker : PatchMaker)
    (c : Client σ) (s : σ) (obj : Object) (f : MutateFn) : Result σ :=
  let key := ObjectKeyFromObject obj
  match c.Get s key obj with
  | Except.error err =>
    let t0 := [Call.Get key (some err)]
    if ¬ apierrors.IsNotFound err then ⟨false, some err, s, t0⟩
    else
      match mutate f key obj with
      | Except.error err => ⟨false, some err, s, t0 ++ [Call.Mutate (some err)]⟩
      | Except.ok obj1 =>
        let t1 := t0 ++ [Call.Mutate none]
        match annotator.SetLastAppliedAnnotation obj1 with
        | Except.error err =>
          ⟨false, some err, s, t1 ++ [ Call.SetLastAppliedAnnotation obj1 (some err)]⟩
        | Except.ok obj2 =>
          let t2 := t1 ++ [ Call.SetLastAppliedAnnotation obj1 none]
          match c.Create s obj2 with
          | (some err, s') => ⟨false, some err, s', t2 ++ [Call.Create obj2 (some err)]⟩
          | (none, s') => ⟨true, none, s', t2 ++ [Call.Create obj2 none]⟩
  | Except.ok obj0 =>
    let t0 := [Call.Get key none]
    let existing := obj0
    match mutate f key obj0 with
    | Except.error err => ⟨false, some err, s, t0 ++ [Call.Mutate (some err)]⟩
    | Except.ok obj1 =>
      let t1 := t0 ++ [Call.Mutate none]
      let opts := calculateOptions obj1
      match patchMaker.Calculate existing obj1 opts with
      | Except.error err =>
        ⟨false, some err, s, t1 ++ [Call.Calculate existing obj1 opts (some err)]⟩
      | Except.ok patchResult =>
        let t2 := t1 ++ [Call.Calculate existing obj1 opts none]
        if patchResult.IsEmpty then ⟨false, none, s, t2⟩
        else
          match annotator.SetLastAppliedAnnotation obj1 with
          | Except.error err =>
            ⟨false, some err, s, t2 ++ [ Call.SetLastAppliedAnnotation obj1 (some err)]⟩
          | Except.ok obj2 =>
            let t3 := t2 ++ [ Call.SetLastAppliedAnnotation obj1 none]
            match c.Update s obj2 with
            | (some err, s') => ⟨false, some err, s', t3 ++ [Call.Update obj2 (some err)]⟩
            | (none, s') => ⟨true, none, s', t3 ++ [Call.Update obj2 none]⟩

/-! ### An in-memory store, for the instances -/

/-- An in-memory object store: the list of the stored objects. -/
abbrev MemStore := List Object

/-- Whether `o` is the stored object of Go type `t` under `key`. -/
def isAt (t : ObjectType) (key : ObjectKey) (o : Object) : Bool :=
  decide (o.GoType = t) && decide (ObjectKeyFromObject o = key)

/-- In-memory `Get`: the stored object of the type of `obj` under `key`, or `NotFound`. -/
def memGet (s : MemStore) (key : ObjectKey) (obj : Object) : Except Error Object :=
  match s.find? (isAt obj.GoType key) with
  | some o => Except.ok o
  | none => Except.error Error.NotFound

/-- In-memory `Create`: `AlreadyExists` when an object of that type and key is stored,
otherwise the object is added. -/
def memCreate (s : MemStore) (obj : Object) : Option Error × MemStore :=
  if s.any (isAt obj.GoType (ObjectKeyFromObject obj)) then (some Error.AlreadyExists, s)
  else (none, s ++ [obj])

/-- In-memory `Update`: `NotFound` when no object of that type and key is stored,
otherwise the stored object is replaced. -/
def memUpdate (s : MemStore) (obj : Object) : Option Error × MemStore :=
  if s.any (isAt obj.GoType (ObjectKeyFromObject obj)) then
    (none, s.map (fun o => if isAt obj.GoType (ObjectKeyFromObject obj) o then obj else o))
  else (some Error.NotFound, s)

/-- The in-memory store as a `Client`. -/
def memClient : Client MemStore := ⟨memGet, memCreate, memUpdate⟩

end kube

/-! ## `deploy.Act` over the annotated create-or-update -/

namespace kube

/-- The number of writes that the store accepted among the calls `l`. -/
def successfulWrites (l : List Call) : Nat := l.countP Call.isSuccessfulWrite

/-- The number of writes issued to the store among the calls `l`, accepted or not. -/
def issuedWrites (l : List Call) : Nat := l.countP Call.isWrite

end kube

namespace resource

/-- Modelled from the spec: `Reconciler.Reconcile()` of `pkg/resource`, which is not among
the sources. `deploy.Act` builds its managed resource with `kube.AnnotatingPersister`,
which is `CreateOrUpdateAnnotated`; the reconcile of a builder is one
`CreateOrUpdateAnnotated` of the builder's placeholder object with the builder's mutate
function, and `(changed, err)` is what that call returns. The world is the store together
with the store calls made so far. -/
def Reconcile {σ : Type} (annotator : kube.Annotator) (patchMaker : kube.PatchMaker)
    (c : kube.Client σ) (placeholder : actor.Builder → kube.Object)
    (build : actor.Builder → kube.MutateFn) (b : actor.Builder) (w : σ × List kube.Call) :
    actor.ReconcileResult (σ × List kube.Call) :=
  let r := kube.CreateOrUpdateAnnotated annotator patchMaker c w.1 (placeholder b) (build b)
  ⟨r.upserted, r.err, (r.store, w.2 ++ r.calls)⟩

end resource

/-! ## Builders and collaborators for the instances -/

namespace kube

/-- A builder with a fixed desired spec, as a mutate function: it writes the spec
`desired` into the object and touches nothing else. -/
def fixedSpec (desired : String) : MutateFn :=
  fun obj => Except.ok { obj with Spec := desired }

/-- A mutate function that moves the object to another namespace and name. -/
def rename (ns name : String) : MutateFn :=
  fun obj => Except.ok { obj with Namespace := ns, Name := name }

/-- An annotator for the instances: it records the spec of the object under the
`LastAppliedAnnotation` key, in place of an earlier record, and never fails. -/
def specAnnotator : Annotator :=
  ⟨fun obj => Except.ok
    { obj with Annotations :=
        ( LastAppliedAnnotation, obj.Spec) ::
          obj.Annotations.filter (fun a => decide (a.1 ≠ LastAppliedAnnotation)) }⟩

/-- A patch maker for the instances: the patch is empty when namespace, name and spec
agree, and the status as well unless `IgnoreStatusFields` is among the options. It never
fails. -/
def fieldPatchMaker : PatchMaker :=
  ⟨fun existing obj opts => Except.ok
    ⟨decide (existing.Namespace = obj.Namespace) && decide (existing.Name = obj.Name) &&
      decide (existing.Spec = obj.Spec) &&
      (decide (CalculateOption.IgnoreStatusFields ∈ opts) ||
        decide (existing.Status = obj.Status))⟩⟩

/-- A placeholder service `b/c` in namespace `a`: a name with the key separator in it. -/
def slashService : Object := ⟨ObjectType.Service, "a", "b/c", [], "", ""⟩

/-- A placeholder service `crdb` in namespace `db`. -/
def crdbService : Object := ⟨ObjectType.Service, "db", "crdb", [], "", ""⟩

end kube

/-! ## `pkg/kube/helpers.go`: what a call reports, pods and containers -/

namespace kube

/-- The failure a call reports to `CreateOrUpdateAnnotated`: the error it returned, but
for a `Get` that returned a not-found error, which is the signal to create and no
failure. -/
def Call.failure : Call → Option Error
  | Call.Get _ (some err) => if apierrors.IsNotFound err then none else some err
  | Call.Get _ none => none
  | Call.Mutate err => err
  | Call.SetLastAppliedAnnotation _ err => err
  | Call.Calculate _ _ _ err => err
  | Call.Create _ err => err
  | Call.Update _ err => err

/-- The step of `CreateOrUpdateAnnotated` a call belongs to, as a number. -/
def Call.kind : Call → Nat
  | Call.Get _ _ => 0
  | Call.Mutate _ => 1
  | Call.SetLastAppliedAnnotation _ _ => 2
  | Call.Calculate _ _ _ _ => 3
  | Call.Create _ _ => 4
  | Call.Update _ _ => 5

/-- A `Create` call. -/
def Call.isCreate : Call → Bool
  | Call.Create _ _ => true
  | _ => false

/-- An `Update` call. -/
def Call.isUpdate : Call → Bool
  | Call.Update _ _ => true
  | _ => false

/-- A `SetLastAppliedAnnotation` call. -/
def Call.isStamp : Call → Bool
  | Call.SetLastAppliedAnnotation _ _ => true
  | _ => false

/-- A mutate function that writes `status` into the status of the object and touches
nothing else. -/
def setStatus (status : String) : MutateFn :=
  fun obj => Except.ok { obj with Status := status }

/-- A mutate function that fails with `err`. -/
def failing (err : Error) : MutateFn :=
  fun _ => Except.error err

/-- The service `crdb` in namespace `db` as stored, with the spec `ports: 26257` and its
last-applied record. -/
def storedService : Object :=
  ⟨ObjectType.Service, "db", "crdb", [( LastAppliedAnnotation, "ports: 26257")],
    "ports: 26257", "ready"⟩

/-- A store that applies an update and then reports a timeout: `Get` and `Create` are
those of the in-memory store, `Update` changes the store as the in-memory update does and
returns an error all the same. -/
def lateErrorClient : Client MemStore :=
  ⟨memGet, memCreate, fun st obj => (some (Error.Errorf "timeout"), (memUpdate st obj).2)⟩

/-- A placeholder statefulset `crdb` in namespace `db`. -/
def crdbStatefulSet : Object := ⟨ObjectType.StatefulSet, "db", "crdb", [], "", ""⟩

end kube

namespace corev1

/-- `corev1.PodConditionType`, a string type. -/
abbrev PodConditionType := String

/-- `corev1.ConditionStatus`, a string type. -/
abbrev ConditionStatus := String

/-- `corev1.PodReady`. -/
def PodReady : PodConditionType := "Ready"

/-- `corev1.ConditionTrue`. -/
def ConditionTrue : ConditionStatus := "True"

/-- `corev1.ConditionFalse`. -/
def ConditionFalse : ConditionStatus := "False"

/-- `corev1.ConditionUnknown`. -/
def ConditionUnknown : ConditionStatus := "Unknown"

/-- `corev1.PodCondition`, reduced to its `Type` (here `Type_`) and its `Status`. -/
structure PodCondition where
  Type_ : PodConditionType
  Status : ConditionStatus
  deriving DecidableEq, Repr

/-- `corev1.PodStatus`, reduced to its `Conditions`; the slice is `none` when it is
`nil`. -/
structure PodStatus where
  Conditions : Option (List PodCondition)
  deriving DecidableEq, Repr

/-- `corev1.Pod`, reduced to its `Status`. -/
structure Pod where
  Status : PodStatus
  deriving DecidableEq, Repr

/-- `corev1.Container`, reduced to its `Name` and its `Image`. -/
structure Container where
  Name : String
  Image : String
  deriving DecidableEq, Repr

/-- `corev1.PodSpec`, reduced to its `Containers`. -/
structure PodSpec where
  Containers : List Container
  deriving DecidableEq, Repr

end corev1

namespace kube

/-- The loop of `FindContainer`: the first container named `container`, if any. -/
def findContainerLoop (container : String) : List corev1.Container → Option corev1.Container
  | [] => none
  | c :: rest => if c.Name = container then some c else findContainerLoop container rest

/-- `FindContainer`, for a `spec` pointer that is not `nil`: the container found and a
`nil` error, or no container and the error
`fmt.Errorf("failed to find container %s", container)`. -/
def FindContainer (container : String) (spec : corev1.PodSpec) :
    Option corev1.Container × Option Error :=
  match findContainerLoop container spec.Containers with
  | some c => (some c, none)
  | none => (none, some (Error.Errorf ("failed to find container " ++ container)))

/-- The loop of `GetPodConditionFromList`, from index `i` on: the index and the condition
of the first entry of type `conditionType`, or `(-1, nil)`. -/
def podConditionLoop (conditionType : corev1.PodConditionType) :
    List corev1.PodCondition → Nat → Int × Option corev1.PodCondition
  | [], _ => (-1, none)
  | c :: rest, i =>
    if c.Type_ = conditionType then ((i : Int), some c)
    else podConditionLoop conditionType rest (i + 1)

/-- `GetPodConditionFromList`. -/
def GetPodConditionFromList (conditions : Option (List corev1.PodCondition))
    (conditionType : corev1.PodConditionType) : Int × Option corev1.PodCondition :=
  match conditions with
  | none => (-1, none)
  | some l => podConditionLoop conditionType l 0

/-- `GetPodCondition`; `status` is `none` for a `nil` pointer. -/
def GetPodCondition (status : Option corev1.PodStatus)
    (conditionType : corev1.PodConditionType) : Int × Option corev1.PodCondition :=
  match status with
  | none => (-1, none)
  | some st => GetPodConditionFromList st.Conditions conditionType

/-- `GetPodReadyCondition`. -/
def GetPodReadyCondition (status : corev1.PodStatus) : Option corev1.PodCondition :=
  (GetPodCondition (some status) corev1.PodReady).2

/-- `IsPodReadyConditionTrue`. -/
def IsPodReadyConditionTrue (status : corev1.PodStatus) : Bool :=
  match GetPodReadyCondition status with
  | none => false
  | some condition => decide (condition.Status = corev1.ConditionTrue)

/-- `IsPodReady`, for a pod pointer that is not `nil`. -/
def IsPodReady (pod : corev1.Pod) : Bool :=
  IsPodReadyConditionTrue pod.Status

end kube

/-! ## Theorems about `deploy.Act` -/

namespace actor
open deploy

/-- The early-return chain of the source is the loop over the builder order. -/
theorem Act_eq_runBuilders {W : Type} (reconcile : Builder → W → ReconcileResult W)
    (cluster : Cluster) (w : W) :
    Act reconcile cluster w = runBuilders reconcile (builderOrder cluster) w := by
  unfold Act builderOrder
  simp only [List.cons_append, List.nil_append, runBuilders, wrapMessage]
  split
  · rfl
  · split
    · rfl
    · split
      · rfl
      · split
        · rfl
        · split
          · rfl
          · split
            · rfl
            · split
              · simp only [runBuilders, wrapMessage]
                split
                · rfl
                · split <;> rfl
              · rfl

/-- Every pass of the loop ends in one of the three ways of `Ending`. -/
theorem runBuilders_ending {W : Type} (reconcile : Builder → W → ReconcileResult W)
    (bs : List Builder) (w : W) :
    Ending bs (runBuilders reconcile bs w).err (runBuilders reconcile bs w).trace := by
  induction bs generalizing w with
  | nil => exact ⟨[], by simp, Or.inl ⟨rfl, rfl, rfl⟩⟩
  | cons b bs ih =>
    rcases h : reconcile b w with ⟨c, e, w1⟩
    simp only [runBuilders, h]
    rcases e with _ | e
    · rcases c with _ | _
      · simp only [Bool.false_eq_true, if_false]
        obtain ⟨q, hq, hcase⟩ := ih w1
        have hq' : ∀ e ∈ Event.Reconcile b false none :: q, e.isQuiet = true := by
          intro e he
          rcases List.mem_cons.mp he with rfl | he
          · rfl
          · exact hq e he
        refine ⟨Event.Reconcile b false none :: q, hq', ?_⟩
        rcases hcase with ⟨h1, h2, h3⟩ | ⟨b', c', e', h1, h2, h3⟩ | ⟨b', h1, h2, h3⟩
        · exact Or.inl ⟨h1, by rw [h2], by simp [attempted, h3]⟩
        · exact Or.inr (Or.inl ⟨b', c', e', h1, by rw [h2]; rfl,
            by simpa [attempted] using h3⟩)
        · exact Or.inr (Or.inr ⟨b', h1, by rw [h2]; rfl, by simpa [attempted] using h3⟩)
      · exact ⟨[], by simp, Or.inr (Or.inr ⟨b, rfl, rfl, by simp [attempted]⟩)⟩
    · exact ⟨[], by simp, Or.inr (Or.inl ⟨b, c, e, rfl, rfl, by simp [attempted]⟩)⟩

/-- Every `deploy.Act` call ends in one of the three ways of `Ending`. -/
theorem Act_ending {W : Type} (reconcile : Builder → W → ReconcileResult W)
    (cluster : Cluster) (w : W) :
    Ending (builderOrder cluster) (Act reconcile cluster w).err
      (Act reconcile cluster w).trace := by
  rw [Act_eq_runBuilders]
  exact runBuilders_ending reconcile _ w

/-- A run of reconciles that reported nothing holds no `CancelLoop`. -/
theorem count_cancel_quiet (q : List Event) (hq : ∀ e ∈ q, e.isQuiet = true) :
    q.count Event.CancelLoop = 0 := by
  rw [List.count_eq_zero]
  intro hmem
  have := hq _ hmem
  simp [Event.isQuiet] at this

/-- The builder of a reconcile event of a trace is among the builders attempted. -/
theorem mem_attempted {t : List Event} {b : Builder} {c : Bool} {e : Option Error}
    (h : Event.Reconcile b c e ∈ t) : b ∈ attempted t := by
  induction t with
  | nil => simp at h
  | cons x t ih =>
    rcases List.mem_cons.mp h with rfl | h'
    · simp [attempted]
    · cases x with
      | Reconcile b' c' e' => simp [attempted, ih h']
      | CancelLoop => simpa [attempted] using ih h'

/-- The builders attempted in a concatenation of traces. -/
theorem attempted_append (s t : List Event) :
    attempted (s ++ t) = attempted s ++ attempted t := by
  induction s with
  | nil => rfl
  | cons x s ih => cases x <;> simp [attempted, ih]

/-- However a pass ends, the builders attempted are a prefix of the builder list. -/
theorem Ending.attempted_prefix {bs : List Builder} {err : Option Error} {trace : List Event}
    (h : Ending bs err trace) : attempted trace <+: bs := by
  obtain ⟨q, _, hcase⟩ := h
  rcases hcase with ⟨_, h2, h3⟩ | ⟨b, c, e, _, h2, h3⟩ | ⟨b, _, h2, h3⟩
  · rw [h2, h3]
  · rw [h2, attempted_append]; simpa [attempted] using h3
  · rw [h2, attempted_append]; simpa [attempted] using h3

/-- Every possible outcome of `deploy.Act`, with its trace written out. -/
theorem Act_cases {W : Type} (reconcile : Builder → W → ReconcileResult W)
    (cluster : Cluster) (w : W) :
    (∃ c e, (Act reconcile cluster w).err
          = some (errors.Wrap e "failed to reconcile discovery service") ∧
        (Act reconcile cluster w).trace
          = [Event.Reconcile Builder.DiscoveryServiceBuilder c (some e)]) ∨
    ((Act reconcile cluster w).err = none ∧
        (Act reconcile cluster w).trace
          = [Event.Reconcile Builder.DiscoveryServiceBuilder true none, Event.CancelLoop]) ∨
    (∃ c e, (Act reconcile cluster w).err
          = some (errors.Wrap e "failed to reconcile public service") ∧
        (Act reconcile cluster w).trace
          = [Event.Reconcile Builder.DiscoveryServiceBuilder false none,
             Event.Reconcile Builder.PublicServiceBuilder c (some e)]) ∨
    ((Act reconcile cluster w).err = none ∧
        (Act reconcile cluster w).trace
          = [Event.Reconcile Builder.DiscoveryServiceBuilder false none,
             Event.Reconcile Builder.PublicServiceBuilder true none, Event.CancelLoop]) ∨
    (∃ c e, (Act reconcile cluster w).err
          = some (errors.Wrap e "failed to reconcile statefulset") ∧
        (Act reconcile cluster w).trace
          = [Event.Reconcile Builder.DiscoveryServiceBuilder false none,
             Event.Reconcile Builder.PublicServiceBuilder false none,
             Event.Reconcile Builder.StatefulSetBuilder c (some e)]) ∨
    ((Act reconcile cluster w).err = none ∧
        (Act reconcile cluster w).trace
          = [Event.Reconcile Builder.DiscoveryServiceBuilder false none,
             Event.Reconcile Builder.PublicServiceBuilder false none,
             Event.Reconcile Builder.StatefulSetBuilder true none, Event.CancelLoop]) ∨
    (¬ cluster.Nodes > 1 ∧ (Act reconcile cluster w).err = none ∧
        (Act reconcile cluster w).trace
          = [Event.Reconcile Builder.DiscoveryServiceBuilder false none,
             Event.Reconcile Builder.PublicServiceBuilder false none,
             Event.Reconcile Builder.StatefulSetBuilder false none]) ∨
    (cluster.Nodes > 1 ∧ ∃ c e, (Act reconcile cluster w).err
          = some (errors.Wrap e "failed to reconcile pdb") ∧
        (Act reconcile cluster w).trace
          = [Event.Reconcile Builder.DiscoveryServiceBuilder false none,
             Event.Reconcile Builder.PublicServiceBuilder false none,
             Event.Reconcile Builder.StatefulSetBuilder false none,
             Event.Reconcile Builder.PdbBuilder c (some e)]) ∨
    (cluster.Nodes > 1 ∧ (Act reconcile cluster w).err = none ∧
        (Act reconcile cluster w).trace
          = [Event.Reconcile Builder.DiscoveryServiceBuilder false none,
             Event.Reconcile Builder.PublicServiceBuilder false none,
             Event.Reconcile Builder.StatefulSetBuilder false none,
             Event.Reconcile Builder.PdbBuilder true none, Event.CancelLoop]) ∨
    (cluster.Nodes > 1 ∧ (Act reconcile cluster w).err = none ∧
        (Act reconcile cluster w).trace
          = [Event.Reconcile Builder.DiscoveryServiceBuilder false none,
             Event.Reconcile Builder.PublicServiceBuilder false none,
             Event.Reconcile Builder.StatefulSetBuilder false none,
             Event.Reconcile Builder.PdbBuilder false none]) := by
  rcases h1 : reconcile Builder.DiscoveryServiceBuilder w with ⟨c1, e1, w1⟩
  rcases h2 : reconcile Builder.PublicServiceBuilder w1 with ⟨c2, e2, w2⟩
  rcases h3 : reconcile Builder.StatefulSetBuilder w2 with ⟨c3, e3, w3⟩
  rcases h4 : reconcile Builder.PdbBuilder w3 with ⟨c4, e4, w4⟩
  rcases e1 with _ | e1
  swap
  · left; exact ⟨c1, e1, by simp [Act, h1], by simp [Act, h1]⟩
  rcases c1 with _ | _
  swap
  · right; left; simp [Act, h1]
  rcases e2 with _ | e2
  swap
  · right; right; left; exact ⟨c2, e2, by simp [Act, h1, h2], by simp [Act, h1, h2]⟩
  rcases c2 with _ | _
  swap
  · right; right; right; left; simp [Act, h1, h2]
  rcases e3 with _ | e3
  swap
  · right; right; right; right; left
    exact ⟨c3, e3, by simp [Act, h1, h2, h3], by simp [Act, h1, h2, h3]⟩
  rcases c3 with _ | _
  swap
  · right; right; right; right; right; left; simp [Act, h1, h2, h3]
  by_cases hn : cluster.Nodes > 1
  swap
  · right; right; right; right; right; right; left; simp [Act, h1, h2, h3, hn]
  rcases e4 with _ | e4
  swap
  · right; right; right; right; right; right; right; left
    exact ⟨hn, c4, e4, by simp [Act, h1, h2, h3, h4, hn], by simp [Act, h1, h2, h3, h4, hn]⟩
  rcases c4 with _ | _
  · right; right; right; right; right; right; right; right; right
    simp [Act, h1, h2, h3, h4, hn]
  · right; right; right; right; right; right; right; right; left
    simp [Act, h1, h2, h3, h4, hn]

/-- In a trace made of a run `q` of reconciles that reported nothing and a tail whose
only reconcile, if any, comes first, everything before a reconcile is in the run. -/
theorem quiet_before (q tail pre post : List Event) (b : Builder) (c : Bool)
    (e : Option Error) (hq : ∀ x ∈ q, x.isQuiet = true)
    (htail : attempted (tail.drop 1) = [])
    (h : q ++ tail = pre ++ Event.Reconcile b c e :: post) :
    ∀ x ∈ pre, x.isQuiet = true := by
  induction q generalizing pre with
  | nil =>
    cases pre with
    | nil => simp
    | cons p pre =>
      cases tail with
      | nil => simp at h
      | cons t tail =>
        simp only [List.nil_append, List.cons_append, List.cons.injEq] at h
        rw [List.drop_one, List.tail_cons, h.2, attempted_append] at htail
        simp [attempted] at htail
  | cons y q ih =>
    cases pre with
    | nil => simp
    | cons p pre =>
      simp only [List.cons_append, List.cons.injEq] at h
      intro x hx
      rcases List.mem_cons.mp hx with rfl | hx
      · rw [← h.1]; exact hq _ (List.mem_cons_self _ _)
      · exact ih pre (fun x hx => hq x (List.mem_cons_of_mem _ hx)) h.2 x hx

/-- The loop over `pre ++ rest`, when the builders of `pre` all return `changed = false`
and no error, is the loop over `rest` run in the world those reconciles leave, with their
events in front. -/
theorem runBuilders_quiet_prefix {W : Type} (reconcile : Builder → W → ReconcileResult W)
    (pre rest : List Builder) (w : W) (hpre : quietAlong reconcile pre w) :
    runBuilders reconcile (pre ++ rest) w
      = ⟨(runBuilders reconcile rest (worldAfter reconcile pre w)).err,
         (runBuilders reconcile rest (worldAfter reconcile pre w)).world,
         quietEvents pre ++ (runBuilders reconcile rest (worldAfter reconcile pre w)).trace⟩ := by
  induction pre generalizing w with
  | nil => simp [worldAfter, quietEvents]
  | cons b pre ih =>
    obtain ⟨hc, he, hrest⟩ := hpre
    have hih := ih _ hrest
    simp only [List.cons_append, runBuilders, he, hc, Bool.false_eq_true, if_false,
      worldAfter, quietEvents, List.map_cons]
    rw [show pre.append rest = pre ++ rest from rfl, hih]
    rfl

/-- The builders of a run of quiet events. -/
theorem attempted_quietEvents (bs : List Builder) : attempted (quietEvents bs) = bs := by
  induction bs with
  | nil => rfl
  | cons b bs ih => simpa [quietEvents, attempted] using ih

/-- The builder order of a cluster, written out. -/
theorem builderOrder_eq (cluster : Cluster) :
    builderOrder cluster
      = (if cluster.Nodes > 1 then
          [Builder.DiscoveryServiceBuilder, Builder.PublicServiceBuilder,
           Builder.StatefulSetBuilder, Builder.PdbBuilder]
         else
          [Builder.DiscoveryServiceBuilder, Builder.PublicServiceBuilder,
           Builder.StatefulSetBuilder]) := by
  unfold builderOrder
  split <;> rfl

/-- No builder occurs twice in the builder order. -/
theorem builderOrder_nodup (cluster : Cluster) : (builderOrder cluster).Nodup := by
  rw [builderOrder_eq]
  split <;> decide

/-- A trace holds no reconcile of a builder that is not among the builders attempted. -/
theorem not_mem_of_not_attempted {t : List Event} {b : Builder} (h : b ∉ attempted t)
    (c : Bool) (e : Option Error) : Event.Reconcile b c e ∉ t :=
  fun hm => h (mem_attempted hm)

/-- In a list without repetition split as `pre ++ b :: post`, no element of `post` is in
`pre ++ [b]`. -/
theorem not_mem_front_of_nodup {pre post : List Builder} {b b' : Builder}
    (hnodup : (pre ++ b :: post).Nodup) (hb' : b' ∈ post) : b' ∉ pre ++ [b] := by
  intro hmem
  have hdisj := List.nodup_append.mp hnodup
  rcases List.mem_append.mp hmem with hp | hb
  · exact hdisj.2.2 hp (List.mem_cons_of_mem _ hb')
  · have hbb : b' = b := by simpa using hb
    subst hbb
    exact (List.nodup_cons.mp hdisj.2.1).1 hb'

/-- The events of a run of quiet reconciles are quiet. -/
theorem quietEvents_isQuiet (bs : List Builder) : ∀ e ∈ quietEvents bs, e.isQuiet = true := by
  intro e he
  simp only [quietEvents, List.mem_map] at he
  obtain ⟨_, _, rfl⟩ := he
  rfl

/-- C1. Take the builders in the order of `deploy.Act` (discovery service, public service,
statefulset, and the pod disruption budget when `Nodes > 1`). If the reconciles of the
builders `pre` before `b`, run one after the other, all return `changed = false` without
error, and the reconcile of `b`, run in the world they leave, returns `changed = true`
without error, then `Act` returns `nil`, its trace is those reconciles, the reconcile of
`b` and one `CancelLoop`, its world is the one the reconcile of `b` left, `CancelLoop` is
invoked exactly once, and no builder after `b` is reconciled. -/
theorem Act_stops_at_first_change {W : Type}
    (reconcile : Builder → W → ReconcileResult W) (cluster : Cluster) (w : W)
    (pre : List Builder) (b : Builder) (post : List Builder)
    (horder : (if cluster.Nodes > 1 then
        [Builder.DiscoveryServiceBuilder, Builder.PublicServiceBuilder,
         Builder.StatefulSetBuilder, Builder.PdbBuilder]
       else
        [Builder.DiscoveryServiceBuilder, Builder.PublicServiceBuilder,
         Builder.StatefulSetBuilder]) = pre ++ b :: post)
    (hpre : quietAlong reconcile pre w)
    (hchanged : (reconcile b (worldAfter reconcile pre w)).changed = true)
    (herr : (reconcile b (worldAfter reconcile pre w)).err = none) :
    (Act reconcile cluster w).err = none ∧
    (Act reconcile cluster w).trace
      = quietEvents pre ++ [Event.Reconcile b true none, Event.CancelLoop] ∧
    (Act reconcile cluster w).world = (reconcile b (worldAfter reconcile pre w)).world ∧
    (Act reconcile cluster w).trace.count Event.CancelLoop = 1 ∧
    attempted (Act reconcile cluster w).trace = pre ++ [b] ∧
    ∀ b' ∈ post, ∀ c e, Event.Reconcile b' c e ∉ (Act reconcile cluster w).trace := by
  have hnodup := builderOrder_nodup cluster
  rw [builderOrder_eq, horder] at hnodup
  have hact : Act reconcile cluster w
      = ⟨none, (reconcile b (worldAfter reconcile pre w)).world,
          quietEvents pre ++ [Event.Reconcile b true none, Event.CancelLoop]⟩ := by
    rw [Act_eq_runBuilders, builderOrder_eq, horder,
      runBuilders_quiet_prefix reconcile pre (b :: post) w hpre]
    simp [runBuilders, herr, hchanged]
  have hatt : attempted (quietEvents pre ++ [Event.Reconcile b true none, Event.CancelLoop])
      = pre ++ [b] := by
    rw [attempted_append, attempted_quietEvents]
    rfl
  rw [hact]
  refine ⟨rfl, rfl, rfl, ?_, hatt, ?_⟩
  · rw [List.count_append, count_cancel_quiet _ (quietEvents_isQuiet pre)]
    simp [List.count_cons]
  · intro b' hb' c e
    apply not_mem_of_not_attempted
    simp only [hatt]
    exact not_mem_front_of_nodup hnodup hb'

/-- Witness for C1: four builders of which the second (the public service) reports a
change; the statefulset and the pod disruption budget are never reconciled. -/
theorem Act_stops_at_first_change_witness :
    (Act (tableReconcile (changedAt Builder.PublicServiceBuilder)) ⟨3⟩ 0).err = none ∧
    (Act (tableReconcile (changedAt Builder.PublicServiceBuilder)) ⟨3⟩ 0).trace
      = quietEvents [Builder.DiscoveryServiceBuilder]
        ++ [Event.Reconcile Builder.PublicServiceBuilder true none, Event.CancelLoop] ∧
    (Act (tableReconcile (changedAt Builder.PublicServiceBuilder)) ⟨3⟩ 0).world
      = (tableReconcile (changedAt Builder.PublicServiceBuilder) Builder.PublicServiceBuilder
          (worldAfter (tableReconcile (changedAt Builder.PublicServiceBuilder))
            [Builder.DiscoveryServiceBuilder] 0)).world ∧
    (Act (tableReconcile (changedAt Builder.PublicServiceBuilder)) ⟨3⟩ 0).trace.count
      Event.CancelLoop = 1 ∧
    attempted (Act (tableReconcile (changedAt Builder.PublicServiceBuilder)) ⟨3⟩ 0).trace
      = [Builder.DiscoveryServiceBuilder] ++ [Builder.PublicServiceBuilder] ∧
    ∀ b' ∈ [Builder.StatefulSetBuilder, Builder.PdbBuilder], ∀ c e,
      Event.Reconcile b' c e
        ∉ (Act (tableReconcile (changedAt Builder.PublicServiceBuilder)) ⟨3⟩ 0).trace :=
  Act_stops_at_first_change (tableReconcile (changedAt Builder.PublicServiceBuilder)) ⟨3⟩ 0
    [Builder.DiscoveryServiceBuilder] Builder.PublicServiceBuilder
    [Builder.StatefulSetBuilder, Builder.PdbBuilder]
    (by decide) ⟨by decide, by decide, trivial⟩ (by decide) (by decide)

/-- The wrap message of a builder, written out. -/
theorem wrapMessage_eq (b : Builder) :
    wrapMessage b
      = (match b with
         | Builder.DiscoveryServiceBuilder => "failed to reconcile discovery service"
         | Builder.PublicServiceBuilder => "failed to reconcile public service"
         | Builder.StatefulSetBuilder => "failed to reconcile statefulset"
         | Builder.PdbBuilder => "failed to reconcile pdb") := by
  cases b <;> rfl

/-- C3. Take the builders in the order of `deploy.Act`. If the reconciles of the builders
`pre` before `b`, run one after the other, all return `changed = false` without error,
and the reconcile of `b`, run in the world they leave, returns the error `e` (whatever
`changed` it comes with), then `Act` returns `e` wrapped with the message that names the
resource kind of `b` (`wrapMessage`, the four messages of the source), its trace is those
reconciles and the failing reconcile of `b`,
its world is the one the reconcile of `b` left, `CancelLoop` is not invoked, and no
builder after `b` is reconciled. -/
theorem Act_wraps_first_error {W : Type}
    (reconcile : Builder → W → ReconcileResult W) (cluster : Cluster) (w : W)
    (pre : List Builder) (b : Builder) (post : List Builder) (e : Error)
    (horder : (if cluster.Nodes > 1 then
        [Builder.DiscoveryServiceBuilder, Builder.PublicServiceBuilder,
         Builder.StatefulSetBuilder, Builder.PdbBuilder]
       else
        [Builder.DiscoveryServiceBuilder, Builder.PublicServiceBuilder,
         Builder.StatefulSetBuilder]) = pre ++ b :: post)
    (hpre : quietAlong reconcile pre w)
    (herr : (reconcile b (worldAfter reconcile pre w)).err = some e) :
    (Act reconcile cluster w).err = some (errors.Wrap e (wrapMessage b)) ∧
    (Act reconcile cluster w).trace
      = quietEvents pre ++
        [Event.Reconcile b (reconcile b (worldAfter reconcile pre w)).changed (some e)] ∧
    (Act reconcile cluster w).world = (reconcile b (worldAfter reconcile pre w)).world ∧
    Event.CancelLoop ∉ (Act reconcile cluster w).trace ∧
    attempted (Act reconcile cluster w).trace = pre ++ [b] ∧
    ∀ b' ∈ post, ∀ c e', Event.Reconcile b' c e' ∉ (Act reconcile cluster w).trace := by
  have hnodup := builderOrder_nodup cluster
  rw [builderOrder_eq, horder] at hnodup
  have hact : Act reconcile cluster w
      = ⟨some (errors.Wrap e (wrapMessage b)),
          (reconcile b (worldAfter reconcile pre w)).world,
          quietEvents pre ++
            [Event.Reconcile b (reconcile b (worldAfter reconcile pre w)).changed
              (some e)]⟩ := by
    rw [Act_eq_runBuilders, builderOrder_eq, horder,
      runBuilders_quiet_prefix reconcile pre (b :: post) w hpre]
    simp [runBuilders, herr]
  have hatt : attempted (quietEvents pre ++
      [Event.Reconcile b (reconcile b (worldAfter reconcile pre w)).changed (some e)])
      = pre ++ [b] := by
    rw [attempted_append, attempted_quietEvents]
    rfl
  rw [hact]
  refine ⟨rfl, rfl, rfl, ?_, hatt, ?_⟩
  · intro hmem
    rcases List.mem_append.mp hmem with h1 | h1
    · have := quietEvents_isQuiet pre _ h1
      simp [Event.isQuiet] at this
    · simp at h1
  · intro b' hb' c e'
    apply not_mem_of_not_attempted
    simp only [hatt]
    exact not_mem_front_of_nodup hnodup hb'

/-- Witness for C3: the discovery service and the public service report nothing and the
statefulset reconcile fails with a conflict. -/
theorem Act_wraps_first_error_witness :
    (Act (tableReconcile (failsAt Builder.StatefulSetBuilder Error.Conflict)) ⟨3⟩ 0).err
      = some (errors.Wrap Error.Conflict "failed to reconcile statefulset") ∧
    (Act (tableReconcile (failsAt Builder.StatefulSetBuilder Error.Conflict)) ⟨3⟩ 0).trace
      = quietEvents [Builder.DiscoveryServiceBuilder, Builder.PublicServiceBuilder] ++
        [Event.Reconcile Builder.StatefulSetBuilder
          (tableReconcile (failsAt Builder.StatefulSetBuilder Error.Conflict)
            Builder.StatefulSetBuilder
            (worldAfter (tableReconcile (failsAt Builder.StatefulSetBuilder Error.Conflict))
              [Builder.DiscoveryServiceBuilder, Builder.PublicServiceBuilder] 0)).changed
          (some Error.Conflict)] ∧
    Event.CancelLoop ∉
      (Act (tableReconcile (failsAt Builder.StatefulSetBuilder Error.Conflict)) ⟨3⟩ 0).trace :=
  have h := Act_wraps_first_error
    (tableReconcile (failsAt Builder.StatefulSetBuilder Error.Conflict)) ⟨3⟩ 0
    [Builder.DiscoveryServiceBuilder, Builder.PublicServiceBuilder]
    Builder.StatefulSetBuilder [Builder.PdbBuilder] Error.Conflict
    (by decide) ⟨by decide, by decide, by decide, by decide, trivial⟩ (by decide)
  ⟨h.1, h.2.1, h.2.2.2.1⟩

/-- C4. If every reconcile made by `deploy.Act` returns `changed = false` with no error,
then `Act` returns `nil`, `CancelLoop` is never invoked, and every builder of the
cluster's order has been reconciled. -/
theorem Act_converged_no_cancel {W : Type}
    (reconcile : Builder → W → ReconcileResult W) (cluster : Cluster) (w : W)
    (h : ∀ b c e, Event.Reconcile b c e ∈ (Act reconcile cluster w).trace →
      c = false ∧ e = none) :
    (Act reconcile cluster w).err = none ∧
    Event.CancelLoop ∉ (Act reconcile cluster w).trace ∧
    attempted (Act reconcile cluster w).trace = builderOrder cluster := by
  obtain ⟨q, hq, hcase⟩ := Act_ending reconcile cluster w
  have hcq : Event.CancelLoop ∉ q := fun hm => by
    have := hq _ hm
    simp [Event.isQuiet] at this
  rcases hcase with ⟨h1, h2, h3⟩ | ⟨b', c', e', h1, h2, h3⟩ | ⟨b', h1, h2, h3⟩
  · rw [h2]; exact ⟨h1, hcq, h3⟩
  · have := h b' c' (some e') (by rw [h2]; simp)
    simp at this
  · have := h b' true none (by rw [h2]; simp)
    simp at this

/-- Witness for C4: no builder reports a change on a three-node cluster. -/
theorem Act_converged_no_cancel_witness :
    (Act (tableReconcile quietTable) ⟨3⟩ 0).err = none ∧
    Event.CancelLoop ∉ (Act (tableReconcile quietTable) ⟨3⟩ 0).trace ∧
    attempted (Act (tableReconcile quietTable) ⟨3⟩ 0).trace
      = [Builder.DiscoveryServiceBuilder, Builder.PublicServiceBuilder,
         Builder.StatefulSetBuilder, Builder.PdbBuilder] :=
  Act_converged_no_cancel (tableReconcile quietTable) ⟨3⟩ 0 (by
    intro b c e hmem
    have ht : (Act (tableReconcile quietTable) ⟨3⟩ 0).trace
        = [Event.Reconcile Builder.DiscoveryServiceBuilder false none,
           Event.Reconcile Builder.PublicServiceBuilder false none,
           Event.Reconcile Builder.StatefulSetBuilder false none,
           Event.Reconcile Builder.PdbBuilder false none] := by decide
    rw [ht] at hmem
    simp at hmem
    rcases hmem with ⟨_, h1, h2⟩ | ⟨_, h1, h2⟩ | ⟨_, h1, h2⟩ | ⟨_, h1, h2⟩ <;> exact ⟨h1, h2⟩)

/-- C5. On a cluster whose spec requests exactly one node, `deploy.Act` never reconciles
the pod disruption budget builder, whatever the reconciles return; and when the discovery
service, public service and statefulset reconciles report no change and no error, `Act`
returns `nil` without invoking `CancelLoop`. -/
theorem Act_single_node_skips_pdb {W : Type}
    (reconcile : Builder → W → ReconcileResult W) (cluster : Cluster) (w : W)
    (hn : cluster.Nodes = 1) :
    (∀ c e, Event.Reconcile Builder.PdbBuilder c e ∉ (Act reconcile cluster w).trace) ∧
    (Event.Reconcile Builder.DiscoveryServiceBuilder false none
        ∈ (Act reconcile cluster w).trace →
      Event.Reconcile Builder.PublicServiceBuilder false none
        ∈ (Act reconcile cluster w).trace →
      Event.Reconcile Builder.StatefulSetBuilder false none
        ∈ (Act reconcile cluster w).trace →
      (Act reconcile cluster w).err = none ∧
      Event.CancelLoop ∉ (Act reconcile cluster w).trace) := by
  have hg : ¬ cluster.Nodes > 1 := by omega
  rcases Act_cases reconcile cluster w with
    ⟨c, e, h1, h2⟩ | ⟨h1, h2⟩ | ⟨c, e, h1, h2⟩ | ⟨h1, h2⟩ | ⟨c, e, h1, h2⟩ | ⟨h1, h2⟩ |
    ⟨_, h1, h2⟩ | ⟨hgt, _⟩ | ⟨hgt, _⟩ | ⟨hgt, _⟩
  all_goals first
    | exact absurd hgt hg
    | (rw [h1, h2]; simp)

/-- Witness for C5: one node, and a pod disruption budget builder that would report a
change if it were reconciled. -/
theorem Act_single_node_skips_pdb_witness :
    (∀ c e, Event.Reconcile Builder.PdbBuilder c e ∉
      (Act (tableReconcile (changedAt Builder.PdbBuilder)) ⟨1⟩ 0).trace) ∧
    (Event.Reconcile Builder.DiscoveryServiceBuilder false none
        ∈ (Act (tableReconcile (changedAt Builder.PdbBuilder)) ⟨1⟩ 0).trace →
      Event.Reconcile Builder.PublicServiceBuilder false none
        ∈ (Act (tableReconcile (changedAt Builder.PdbBuilder)) ⟨1⟩ 0).trace →
      Event.Reconcile Builder.StatefulSetBuilder false none
        ∈ (Act (tableReconcile (changedAt Builder.PdbBuilder)) ⟨1⟩ 0).trace →
      (Act (tableReconcile (changedAt Builder.PdbBuilder)) ⟨1⟩ 0).err = none ∧
      Event.CancelLoop ∉ (Act (tableReconcile (changedAt Builder.PdbBuilder)) ⟨1⟩ 0).trace) :=
  Act_single_node_skips_pdb (tableReconcile (changedAt Builder.PdbBuilder)) ⟨1⟩ 0 (by decide)

/-- C6, as the code has it. The guard is `Nodes > 1`: on every cluster with more than one
node, if the discovery service, public service and statefulset reconciles report no
change and no error, the pod disruption budget builder is reconciled; on every cluster
with at most one node (one, zero or a negative count) it is never reconciled. -/
theorem Act_pdb_reconciled_iff_guard {W : Type}
    (reconcile : Builder → W → ReconcileResult W) (cluster : Cluster) (w : W) :
    (cluster.Nodes > 1 →
      Event.Reconcile Builder.DiscoveryServiceBuilder false none
        ∈ (Act reconcile cluster w).trace →
      Event.Reconcile Builder.PublicServiceBuilder false none
        ∈ (Act reconcile cluster w).trace →
      Event.Reconcile Builder.StatefulSetBuilder false none
        ∈ (Act reconcile cluster w).trace →
      ∃ c e, Event.Reconcile Builder.PdbBuilder c e ∈ (Act reconcile cluster w).trace) ∧
    (cluster.Nodes ≤ 1 →
      ∀ c e, Event.Reconcile Builder.PdbBuilder c e ∉ (Act reconcile cluster w).trace) := by
  rcases Act_cases reconcile cluster w with
    ⟨c, e, h1, h2⟩ | ⟨h1, h2⟩ | ⟨c, e, h1, h2⟩ | ⟨h1, h2⟩ | ⟨c, e, h1, h2⟩ | ⟨h1, h2⟩ |
    ⟨hg, h1, h2⟩ | ⟨hg, c, e, h1, h2⟩ | ⟨hg, h1, h2⟩ | ⟨hg, h1, h2⟩
  all_goals refine ⟨?_, ?_⟩
  all_goals first
    | (intro hle; exact absurd hg (by omega))
    | (rw [h2]; simp)

/-- Witness for C6 as amended: a three-node cluster on which nothing changes, so that the
pod disruption budget is reconciled. -/
theorem Act_pdb_reconciled_iff_guard_witness :
    ∃ c e, Event.Reconcile Builder.PdbBuilder c e
      ∈ (Act (tableReconcile quietTable) ⟨3⟩ 0).trace :=
  (Act_pdb_reconciled_iff_guard (tableReconcile quietTable) ⟨3⟩ 0).1
    (by decide) (by decide) (by decide) (by decide)

/-- Counterexample to C6 as stated: a cluster with zero nodes (a node count other than
one) on which the three first reconciles report no change and no error, and the pod
disruption budget builder is still not reconciled. -/
theorem Act_zero_nodes_skips_pdb :
    (⟨0⟩ : Cluster).Nodes ≠ 1 ∧
    Event.Reconcile Builder.DiscoveryServiceBuilder false none
      ∈ (Act (tableReconcile quietTable) ⟨0⟩ 0).trace ∧
    Event.Reconcile Builder.PublicServiceBuilder false none
      ∈ (Act (tableReconcile quietTable) ⟨0⟩ 0).trace ∧
    Event.Reconcile Builder.StatefulSetBuilder false none
      ∈ (Act (tableReconcile quietTable) ⟨0⟩ 0).trace ∧
    ¬ ∃ c e, Event.Reconcile Builder.PdbBuilder c e
      ∈ (Act (tableReconcile quietTable) ⟨0⟩ 0).trace := by
  have ht : (Act (tableReconcile quietTable) ⟨0⟩ 0).trace
      = [Event.Reconcile Builder.DiscoveryServiceBuilder false none,
         Event.Reconcile Builder.PublicServiceBuilder false none,
         Event.Reconcile Builder.StatefulSetBuilder false none] := by decide
  rw [ht]
  refine ⟨by decide, by decide, by decide, by decide, ?_⟩
  simp

/-- C7. The builders reconciled by one `deploy.Act` call form a prefix of the fixed order
discovery service, public service, statefulset, pod disruption budget (the last one
present only when `Nodes > 1`), and every event before a reconcile in the trace is a
reconcile that returned `changed = false` and no error. -/
theorem Act_reconciles_in_order {W : Type}
    (reconcile : Builder → W → ReconcileResult W) (cluster : Cluster) (w : W) :
    attempted (Act reconcile cluster w).trace <+:
      (if cluster.Nodes > 1 then
        [Builder.DiscoveryServiceBuilder, Builder.PublicServiceBuilder,
         Builder.StatefulSetBuilder, Builder.PdbBuilder]
       else
        [Builder.DiscoveryServiceBuilder, Builder.PublicServiceBuilder,
         Builder.StatefulSetBuilder]) ∧
    ∀ pre b c e post,
      (Act reconcile cluster w).trace = pre ++ Event.Reconcile b c e :: post →
      ∀ x ∈ pre, x.isQuiet = true := by
  have hend := Act_ending reconcile cluster w
  constructor
  · have := hend.attempted_prefix
    unfold builderOrder at this
    split
    · next hg => simpa [hg] using this
    · next hg => simpa [hg] using this
  · intro pre b c e post hdec
    obtain ⟨q, hq, hcase⟩ := hend
    rcases hcase with ⟨_, h2, _⟩ | ⟨b', c', e', _, h2, _⟩ | ⟨b', _, h2, _⟩
    · exact quiet_before q [] pre post b c e hq rfl (by rw [List.append_nil, ← h2, hdec])
    · exact quiet_before q [Event.Reconcile b' c' (some e')] pre post b c e hq rfl
        (by rw [← h2, hdec])
    · exact quiet_before q [Event.Reconcile b' true none, Event.CancelLoop] pre post b c e
        hq rfl (by rw [← h2, hdec])

/-- Instance of C7: when the public service reports a change on a three-node cluster, the
reconciled builders are the two first of the order. -/
theorem Act_reconciles_in_order_witness :
    attempted (Act (tableReconcile (changedAt Builder.PublicServiceBuilder)) ⟨3⟩ 0).trace
      = [Builder.DiscoveryServiceBuilder, Builder.PublicServiceBuilder] ∧
    attempted (Act (tableReconcile (changedAt Builder.PublicServiceBuilder)) ⟨3⟩ 0).trace <+:
      (if (⟨3⟩ : Cluster).Nodes > 1 then
        [Builder.DiscoveryServiceBuilder, Builder.PublicServiceBuilder,
         Builder.StatefulSetBuilder, Builder.PdbBuilder]
       else
        [Builder.DiscoveryServiceBuilder, Builder.PublicServiceBuilder,
         Builder.StatefulSetBuilder]) :=
  ⟨by decide,
   (Act_reconciles_in_order (tableReconcile (changedAt Builder.PublicServiceBuilder))
     ⟨3⟩ 0).1⟩

end actor

/-! ## Theorems about `deploy.Handles` -/

namespace actor
open deploy

/-- The lookup finds nothing exactly when no condition of the type is in the list. -/
theorem lookup_eq_none_iff (ctype : api.ClusterConditionType)
    (conds : List api.ClusterCondition) :
    condition.lookup ctype conds = none ↔ ∀ c ∈ conds, c.Type_ ≠ ctype := by
  induction conds with
  | nil => simp [condition.lookup]
  | cons c rest ih =>
    by_cases h : c.Type_ = ctype
    · simp [condition.lookup, h]
    · simp [condition.lookup, h, ih]

/-- A status found by the lookup is the status of a condition of that type in the list. -/
theorem mem_of_lookup_eq_some (ctype : api.ClusterConditionType)
    (conds : List api.ClusterCondition) (status : api.ConditionStatus)
    (h : condition.lookup ctype conds = some status) : ⟨ctype, status⟩ ∈ conds := by
  induction conds with
  | nil => simp [condition.lookup] at h
  | cons c rest ih =>
    by_cases hc : c.Type_ = ctype
    · simp only [condition.lookup, hc, if_true, Option.some.injEq] at h
      cases c
      simp_all
    · simp only [condition.lookup, hc, if_false] at h
      exact List.mem_cons_of_mem _ (ih h)

/-- C8. `deploy.Handles` returns true exactly when the Initialized condition is present
with status True or with status False and, if the CrdbVersionValidator gate is enabled,
the CrdbVersionChecked condition is present with status True. In particular it returns
false when the Initialized condition is absent or Unknown, and whenever it returns true
with the gate enabled it returns true with the gate disabled. -/
theorem Handles_iff_conditions (gate : Bool) (conds : List api.ClusterCondition) :
    (Handles gate conds = true ↔
      (condition.lookup api.ClusterConditionType.InitializedCondition conds
          = some api.ConditionStatus.ConditionTrue ∨
        condition.lookup api.ClusterConditionType.InitializedCondition conds
          = some api.ConditionStatus.ConditionFalse) ∧
      (gate = true →
        condition.lookup api.ClusterConditionType.CrdbVersionChecked conds
          = some api.ConditionStatus.ConditionTrue)) ∧
    (condition.lookup api.ClusterConditionType.InitializedCondition conds = none →
      Handles gate conds = false) ∧
    (condition.lookup api.ClusterConditionType.InitializedCondition conds
        = some api.ConditionStatus.ConditionUnknown → Handles gate conds = false) ∧
    (Handles true conds = true → Handles false conds = true) := by
  refine ⟨?_, ?_, ?_, ?_⟩
  · cases gate <;> simp [Handles, condition.True, condition.False]
  · intro h
    cases gate <;> simp [Handles, condition.True, condition.False, h]
  · intro h
    cases gate <;> simp [Handles, condition.True, condition.False, h]
  · simp only [Handles, if_true, Bool.and_eq_true]
    intro h
    simpa using h.1

/-- Instances of C8: with the gate enabled, an explicit `False` Initialized condition
together with a checked version is handled; an absent Initialized condition is not, nor
is an Unknown one; and without the version check the gate makes the difference. -/
theorem Handles_iff_conditions_witness :
    Handles true [⟨api.ClusterConditionType.InitializedCondition,
        api.ConditionStatus.ConditionFalse⟩,
      ⟨api.ClusterConditionType.CrdbVersionChecked,
        api.ConditionStatus.ConditionTrue⟩] = true ∧
    Handles true [⟨api.ClusterConditionType.CrdbVersionChecked,
        api.ConditionStatus.ConditionTrue⟩] = false ∧
    Handles false [⟨api.ClusterConditionType.InitializedCondition,
        api.ConditionStatus.ConditionUnknown⟩] = false ∧
    Handles true [⟨api.ClusterConditionType.InitializedCondition,
        api.ConditionStatus.ConditionTrue⟩] = false ∧
    Handles false [⟨api.ClusterConditionType.InitializedCondition,
        api.ConditionStatus.ConditionTrue⟩] = true ∧
    (Handles true [⟨api.ClusterConditionType.InitializedCondition,
        api.ConditionStatus.ConditionTrue⟩] = true →
      Handles false [⟨api.ClusterConditionType.InitializedCondition,
        api.ConditionStatus.ConditionTrue⟩] = true) :=
  ⟨by decide, by decide, by decide, by decide, by decide,
   (Handles_iff_conditions true [⟨api.ClusterConditionType.InitializedCondition,
        api.ConditionStatus.ConditionTrue⟩]).2.2.2⟩

end actor

/-! ## Theorems about `CreateOrUpdateAnnotated` -/

namespace kube

/-- The paths through `CreateOrUpdateAnnotated`: for each way the collaborators can
answer, the result and the calls made. The five first are the paths of the create
branch (the fetch failed), the six last those of the update branch (the object was
found). -/
theorem CreateOrUpdateAnnotated_cases {σ : Type} (annotator : Annotator)
    (patchMaker : PatchMaker) (c : Client σ) (s : σ) (obj : Object) (f : MutateFn) :
    (∃ err, c.Get s (ObjectKeyFromObject obj) obj = Except.error err ∧
      apierrors.IsNotFound err = false ∧
      CreateOrUpdateAnnotated annotator patchMaker c s obj f
        = ⟨false, some err, s, [Call.Get (ObjectKeyFromObject obj) (some err)]⟩) ∨
    (∃ err err1, c.Get s (ObjectKeyFromObject obj) obj = Except.error err ∧
      apierrors.IsNotFound err = true ∧
      mutate f (ObjectKeyFromObject obj) obj = Except.error err1 ∧
      CreateOrUpdateAnnotated annotator patchMaker c s obj f
        = ⟨false, some err1, s,
            [Call.Get (ObjectKeyFromObject obj) (some err), Call.Mutate (some err1)]⟩) ∨
    (∃ err obj1 err2, c.Get s (ObjectKeyFromObject obj) obj = Except.error err ∧
      apierrors.IsNotFound err = true ∧
      mutate f (ObjectKeyFromObject obj) obj = Except.ok obj1 ∧
      annotator.SetLastAppliedAnnotation obj1 = Except.error err2 ∧
      CreateOrUpdateAnnotated annotator patchMaker c s obj f
        = ⟨false, some err2, s,
            [Call.Get (ObjectKeyFromObject obj) (some err), Call.Mutate none,
             Call.SetLastAppliedAnnotation obj1 (some err2)]⟩) ∨
    (∃ err obj1 obj2 err3 s', c.Get s (ObjectKeyFromObject obj) obj = Except.error err ∧
      apierrors.IsNotFound err = true ∧
      mutate f (ObjectKeyFromObject obj) obj = Except.ok obj1 ∧
      annotator.SetLastAppliedAnnotation obj1 = Except.ok obj2 ∧
      c.Create s obj2 = (some err3, s') ∧
      CreateOrUpdateAnnotated annotator patchMaker c s obj f
        = ⟨false, some err3, s',
            [Call.Get (ObjectKeyFromObject obj) (some err), Call.Mutate none,
             Call.SetLastAppliedAnnotation obj1 none, Call.Create obj2 (some err3)]⟩) ∨
    (∃ err obj1 obj2 s', c.Get s (ObjectKeyFromObject obj) obj = Except.error err ∧
      apierrors.IsNotFound err = true ∧
      mutate f (ObjectKeyFromObject obj) obj = Except.ok obj1 ∧
      annotator.SetLastAppliedAnnotation obj1 = Except.ok obj2 ∧
      c.Create s obj2 = (none, s') ∧
      CreateOrUpdateAnnotated annotator patchMaker c s obj f
        = ⟨true, none, s',
            [Call.Get (ObjectKeyFromObject obj) (some err), Call.Mutate none,
             Call.SetLastAppliedAnnotation obj1 none, Call.Create obj2 none]⟩) ∨
    (∃ obj0 err1, c.Get s (ObjectKeyFromObject obj) obj = Except.ok obj0 ∧
      mutate f (ObjectKeyFromObject obj) obj0 = Except.error err1 ∧
      CreateOrUpdateAnnotated annotator patchMaker c s obj f
        = ⟨false, some err1, s,
            [Call.Get (ObjectKeyFromObject obj) none, Call.Mutate (some err1)]⟩) ∨
    (∃ obj0 obj1 err2, c.Get s (ObjectKeyFromObject obj) obj = Except.ok obj0 ∧
      mutate f (ObjectKeyFromObject obj) obj0 = Except.ok obj1 ∧
      patchMaker.Calculate obj0 obj1 (calculateOptions obj1) = Except.error err2 ∧
      CreateOrUpdateAnnotated annotator patchMaker c s obj f
        = ⟨false, some err2, s,
            [Call.Get (ObjectKeyFromObject obj) none, Call.Mutate none,
             Call.Calculate obj0 obj1 (calculateOptions obj1) (some err2)]⟩) ∨
    (∃ obj0 obj1 patchResult, c.Get s (ObjectKeyFromObject obj) obj = Except.ok obj0 ∧
      mutate f (ObjectKeyFromObject obj) obj0 = Except.ok obj1 ∧
      patchMaker.Calculate obj0 obj1 (calculateOptions obj1) = Except.ok patchResult ∧
      patchResult.IsEmpty = true ∧
      CreateOrUpdateAnnotated annotator patchMaker c s obj f
        = ⟨false, none, s,
            [Call.Get (ObjectKeyFromObject obj) none, Call.Mutate none,
             Call.Calculate obj0 obj1 (calculateOptions obj1) none]⟩) ∨
    (∃ obj0 obj1 patchResult err3, c.Get s (ObjectKeyFromObject obj) obj = Except.ok obj0 ∧
      mutate f (ObjectKeyFromObject obj) obj0 = Except.ok obj1 ∧
      patchMaker.Calculate obj0 obj1 (calculateOptions obj1) = Except.ok patchResult ∧
      patchResult.IsEmpty = false ∧
      annotator.SetLastAppliedAnnotation obj1 = Except.error err3 ∧
      CreateOrUpdateAnnotated annotator patchMaker c s obj f
        = ⟨false, some err3, s,
            [Call.Get (ObjectKeyFromObject obj) none, Call.Mutate none,
             Call.Calculate obj0 obj1 (calculateOptions obj1) none,
             Call.SetLastAppliedAnnotation obj1 (some err3)]⟩) ∨
    (∃ obj0 obj1 patchResult obj2 err4 s',
      c.Get s (ObjectKeyFromObject obj) obj = Except.ok obj0 ∧
      mutate f (ObjectKeyFromObject obj) obj0 = Except.ok obj1 ∧
      patchMaker.Calculate obj0 obj1 (calculateOptions obj1) = Except.ok patchResult ∧
      patchResult.IsEmpty = false ∧
      annotator.SetLastAppliedAnnotation obj1 = Except.ok obj2 ∧
      c.Update s obj2 = (some err4, s') ∧
      CreateOrUpdateAnnotated annotator patchMaker c s obj f
        = ⟨false, some err4, s',
            [Call.Get (ObjectKeyFromObject obj) none, Call.Mutate none,
             Call.Calculate obj0 obj1 (calculateOptions obj1) none,
             Call.SetLastAppliedAnnotation obj1 none, Call.Update obj2 (some err4)]⟩) ∨
    (∃ obj0 obj1 patchResult obj2 s',
      c.Get s (ObjectKeyFromObject obj) obj = Except.ok obj0 ∧
      mutate f (ObjectKeyFromObject obj) obj0 = Except.ok obj1 ∧
      patchMaker.Calculate obj0 obj1 (calculateOptions obj1) = Except.ok patchResult ∧
      patchResult.IsEmpty = false ∧
      annotator.SetLastAppliedAnnotation obj1 = Except.ok obj2 ∧
      c.Update s obj2 = (none, s') ∧
      CreateOrUpdateAnnotated annotator patchMaker c s obj f
        = ⟨true, none, s',
            [Call.Get (ObjectKeyFromObject obj) none, Call.Mutate none,
             Call.Calculate obj0 obj1 (calculateOptions obj1) none,
             Call.SetLastAppliedAnnotation obj1 none, Call.Update obj2 none]⟩) := by
  rcases hg : c.Get s (ObjectKeyFromObject obj) obj with err | obj0
  · rcases hnf : apierrors.IsNotFound err with _ | _
    · left
      exact ⟨err, rfl, hnf, by simp [CreateOrUpdateAnnotated, hg, hnf]⟩
    · rcases hm : mutate f (ObjectKeyFromObject obj) obj with err1 | obj1
      · right; left
        exact ⟨err, err1, rfl, hnf, rfl, by simp [CreateOrUpdateAnnotated, hg, hnf, hm]⟩
      · rcases ha : annotator.SetLastAppliedAnnotation obj1 with err2 | obj2
        · right; right; left
          exact ⟨err, obj1, err2, rfl, hnf, rfl, ha,
            by simp [CreateOrUpdateAnnotated, hg, hnf, hm, ha]⟩
        · rcases hc : c.Create s obj2 with ⟨_ | err3, s'⟩
          · right; right; right; right; left
            exact ⟨err, obj1, obj2, s', rfl, hnf, rfl, ha, hc,
              by simp [CreateOrUpdateAnnotated, hg, hnf, hm, ha, hc]⟩
          · right; right; right; left
            exact ⟨err, obj1, obj2, err3, s', rfl, hnf, rfl, ha, hc,
              by simp [CreateOrUpdateAnnotated, hg, hnf, hm, ha, hc]⟩
  · right; right; right; right; right
    rcases hm : mutate f (ObjectKeyFromObject obj) obj0 with err1 | obj1
    · left
      exact ⟨obj0, err1, rfl, hm, by simp [CreateOrUpdateAnnotated, hg, hm]⟩
    · rcases hp : patchMaker.Calculate obj0 obj1 (calculateOptions obj1) with err2 | pr
      · right; left
        exact ⟨obj0, obj1, err2, rfl, hm, hp, by simp [CreateOrUpdateAnnotated, hg, hm, hp]⟩
      · rcases he : pr.IsEmpty with _ | _
        · rcases ha : annotator.SetLastAppliedAnnotation obj1 with err3 | obj2
          · right; right; right; left
            exact ⟨obj0, obj1, pr, err3, rfl, hm, hp, he, ha,
              by simp [CreateOrUpdateAnnotated, hg, hm, hp, he, ha]⟩
          · rcases hu : c.Update s obj2 with ⟨_ | err4, s'⟩
            · right; right; right; right; right
              exact ⟨obj0, obj1, pr, obj2, s', rfl, hm, hp, he, ha, hu,
                by simp [CreateOrUpdateAnnotated, hg, hm, hp, he, ha, hu]⟩
            · right; right; right; right; left
              exact ⟨obj0, obj1, pr, obj2, err4, s', rfl, hm, hp, he, ha, hu,
                by simp [CreateOrUpdateAnnotated, hg, hm, hp, he, ha, hu]⟩
        · right; right; left
          exact ⟨obj0, obj1, pr, rfl, hm, hp, he,
            by simp [CreateOrUpdateAnnotated, hg, hm, hp, he]⟩

/-- One call issues at most one write, the write was accepted exactly when `upserted` is
returned, `upserted` never comes with an error, and a call that returns `(false, nil)`
issued no write. -/
theorem CreateOrUpdateAnnotated_writes {σ : Type} (annotator : Annotator)
    (patchMaker : PatchMaker) (c : Client σ) (s : σ) (obj : Object) (f : MutateFn) :
    successfulWrites (CreateOrUpdateAnnotated annotator patchMaker c s obj f).calls
      = (if (CreateOrUpdateAnnotated annotator patchMaker c s obj f).upserted then 1 else 0) ∧
    ((CreateOrUpdateAnnotated annotator patchMaker c s obj f).upserted = true →
      (CreateOrUpdateAnnotated annotator patchMaker c s obj f).err = none) ∧
    issuedWrites (CreateOrUpdateAnnotated annotator patchMaker c s obj f).calls ≤ 1 ∧
    ((CreateOrUpdateAnnotated annotator patchMaker c s obj f).upserted = false →
      (CreateOrUpdateAnnotated annotator patchMaker c s obj f).err = none →
      issuedWrites (CreateOrUpdateAnnotated annotator patchMaker c s obj f).calls = 0) := by
  rcases CreateOrUpdateAnnotated_cases annotator patchMaker c s obj f with
    ⟨_, _, _, h⟩ | ⟨_, _, _, _, _, h⟩ | ⟨_, _, _, _, _, _, _, h⟩ |
    ⟨_, _, _, _, _, _, _, _, _, _, h⟩ | ⟨_, _, _, _, _, _, _, _, _, h⟩ |
    ⟨_, _, _, _, h⟩ | ⟨_, _, _, _, _, _, h⟩ | ⟨_, _, _, _, _, _, _, h⟩ |
    ⟨_, _, _, _, _, _, _, _, _, h⟩ | ⟨_, _, _, _, _, _, _, _, _, _, _, _, h⟩ |
    ⟨_, _, _, _, _, _, _, _, _, _, _, h⟩
  all_goals
    rw [h]
    simp [successfulWrites, issuedWrites, Call.isSuccessfulWrite, Call.isWrite,
      List.countP_cons]

/-- The identity check of `mutate` at work: when the key of the mutated object renders, by
`String()`, differently from the key used for the fetch, `CreateOrUpdateAnnotated`
returns `upserted = false` with an error and issues no create and no update, whether the
object was found or not. -/
theorem CreateOrUpdateAnnotated_rejects_key_string_change {σ : Type} (annotator : Annotator)
    (patchMaker : PatchMaker) (c : Client σ) (s : σ) (obj : Object) (f : MutateFn)
    (hf : ∀ o o1, f o = Except.ok o1 →
      (ObjectKeyFromObject obj).String ≠ (ObjectKeyFromObject o1).String) :
    (CreateOrUpdateAnnotated annotator patchMaker c s obj f).upserted = false ∧
    (CreateOrUpdateAnnotated annotator patchMaker c s obj f).err ≠ none ∧
    (CreateOrUpdateAnnotated annotator patchMaker c s obj f).store = s ∧
    ∀ call ∈ (CreateOrUpdateAnnotated annotator patchMaker c s obj f).calls,
      call.isWrite = false := by
  have hm : ∀ o o1, mutate f (ObjectKeyFromObject obj) o ≠ Except.ok o1 := by
    intro o o1 h
    unfold mutate at h
    rcases hfo : f o with e | o2
    · rw [hfo] at h; simp at h
    · rw [hfo] at h
      simp only [hf o o2 hfo, ne_eq, not_false_eq_true, if_true] at h
      cases h
  rcases CreateOrUpdateAnnotated_cases annotator patchMaker c s obj f with
    ⟨_, _, _, h⟩ | ⟨_, _, _, _, _, h⟩ | ⟨_, _, _, _, _, hmu, _, h⟩ |
    ⟨_, _, _, _, _, _, _, hmu, _, _, h⟩ | ⟨_, _, _, _, _, _, hmu, _, _, h⟩ |
    ⟨_, _, _, _, h⟩ | ⟨_, _, _, _, hmu, _, h⟩ | ⟨_, _, _, _, hmu, _, _, h⟩ |
    ⟨_, _, _, _, _, hmu, _, _, _, h⟩ | ⟨_, _, _, _, _, _, _, hmu, _, _, _, _, h⟩ |
    ⟨_, _, _, _, _, _, hmu, _, _, _, _, h⟩
  all_goals first
    | exact absurd hmu (hm _ _)
    | (rw [h]; simp [Call.isWrite])

/-- Rendering a key by `String()` loses nothing as long as the namespaces hold no `/`:
two such keys with the same rendering are the same key. -/
theorem keyString_injective_of_no_separator (k k' : ObjectKey)
    (hk : '/' ∉ k.Namespace.data) (hk' : '/' ∉ k'.Namespace.data)
    (h : k.String = k'.String) : k = k' := by
  have key : ∀ (a a' b b' : List Char), '/' ∉ a → '/' ∉ a' →
      a ++ '/' :: b = a' ++ '/' :: b' → a = a' ∧ b = b' := by
    intro a
    induction a with
    | nil =>
      intro a' b b' _ ha' hab
      cases a' with
      | nil => simpa using hab
      | cons x a' =>
        simp only [List.nil_append, List.cons_append, List.cons.injEq] at hab
        exact absurd (by rw [← hab.1]; exact List.mem_cons_self _ _) ha'
    | cons x a ih =>
      intro a' b b' ha ha' hab
      cases a' with
      | nil =>
        simp only [List.nil_append, List.cons_append, List.cons.injEq] at hab
        exact absurd (by rw [hab.1]; exact List.mem_cons_self _ _) ha
      | cons y a' =>
        simp only [List.cons_append, List.cons.injEq] at hab
        obtain ⟨h1, h2⟩ := ih a' b b' (fun hm => ha (List.mem_cons_of_mem _ hm))
          (fun hm => ha' (List.mem_cons_of_mem _ hm)) hab.2
        exact ⟨by rw [hab.1, h1], h2⟩
  have hdata := congrArg String.data h
  simp only [ObjectKey.String, String.data_append] at hdata
  rw [List.append_assoc, List.append_assoc] at hdata
  obtain ⟨h1, h2⟩ := key _ _ _ _ hk hk' hdata
  cases k; cases k'
  simp only [ObjectKey.mk.injEq]
  exact ⟨String.ext h1, String.ext h2⟩

/-- C9, the failing input. A service named `b/c` in namespace `a` is moved by the mutate
function to the name `c` in namespace `a/b`: the object key changes, both keys render as
`a/b/c`, and `mutate` lets the change through. On an empty store the moved object is
created and `(true, nil)` is returned; on a store holding the service, an update of the
moved object is issued. -/
theorem CreateOrUpdateAnnotated_key_change_undetected :
    ObjectKeyFromObject slashService ≠ ⟨"a/b", "c"⟩ ∧
    mutate (rename "a/b" "c") (ObjectKeyFromObject slashService) slashService
      = Except.ok ⟨ObjectType.Service, "a/b", "c", [], "", ""⟩ ∧
    (CreateOrUpdateAnnotated specAnnotator fieldPatchMaker memClient [] slashService
      (rename "a/b" "c")).upserted = true ∧
    (CreateOrUpdateAnnotated specAnnotator fieldPatchMaker memClient [] slashService
      (rename "a/b" "c")).err = none ∧
    (CreateOrUpdateAnnotated specAnnotator fieldPatchMaker memClient [] slashService
      (rename "a/b" "c")).calls
      = [Call.Get ⟨"a", "b/c"⟩ (some Error.NotFound), Call.Mutate none,
         Call.SetLastAppliedAnnotation ⟨ObjectType.Service, "a/b", "c", [], "", ""⟩ none,
         Call.Create
           ⟨ObjectType.Service, "a/b", "c", [( LastAppliedAnnotation, "")], "", ""⟩ none] ∧
    (CreateOrUpdateAnnotated specAnnotator fieldPatchMaker memClient [] slashService
      (rename "a/b" "c")).store
      = [⟨ObjectType.Service, "a/b", "c", [( LastAppliedAnnotation, "")], "", ""⟩] ∧
    (CreateOrUpdateAnnotated specAnnotator fieldPatchMaker memClient [slashService]
      slashService (rename "a/b" "c")).calls.any Call.isWrite = true := by
  refine ⟨by decide, rfl, by decide, by decide, by decide, by decide, by decide⟩

/-- C10. For a builder with a fixed desired spec and an in-memory store that does not
hold the object, provided the annotator stamps the built object and writes nothing but
annotations, and the patch maker finds no difference between the stamped object and
itself: the first `CreateOrUpdateAnnotated` returns `(true, nil)` and stores the stamped
object; the second, run on the store the first one left, returns `(false, nil)`, issues
no create and no update, and leaves the store as it was, so that the stored object is
the same after both calls. -/
theorem CreateOrUpdateAnnotated_twice (annotator : Annotator) (patchMaker : PatchMaker)
    (s : MemStore) (obj : Object) (desired : String) (stamped : Object)
    (hAbsent : memClient.Get s (ObjectKeyFromObject obj) obj = Except.error Error.NotFound)
    (hStamp : annotator.SetLastAppliedAnnotation { obj with Spec := desired }
      = Except.ok stamped)
    (hOnly : stamped = { obj with Spec := desired, Annotations := stamped.Annotations })
    (hDiff : patchMaker.Calculate stamped stamped (calculateOptions stamped)
      = Except.ok ⟨true⟩) :
    ((CreateOrUpdateAnnotated annotator patchMaker memClient s obj
        (fixedSpec desired)).upserted = true ∧
      (CreateOrUpdateAnnotated annotator patchMaker memClient s obj
        (fixedSpec desired)).err = none) ∧
    ((CreateOrUpdateAnnotated annotator patchMaker memClient
        (CreateOrUpdateAnnotated annotator patchMaker memClient s obj
          (fixedSpec desired)).store obj (fixedSpec desired)).upserted = false ∧
      (CreateOrUpdateAnnotated annotator patchMaker memClient
        (CreateOrUpdateAnnotated annotator patchMaker memClient s obj
          (fixedSpec desired)).store obj (fixedSpec desired)).err = none) ∧
    (∀ call ∈ (CreateOrUpdateAnnotated annotator patchMaker memClient
        (CreateOrUpdateAnnotated annotator patchMaker memClient s obj
          (fixedSpec desired)).store obj (fixedSpec desired)).calls,
      call.isWrite = false) ∧
    (CreateOrUpdateAnnotated annotator patchMaker memClient
        (CreateOrUpdateAnnotated annotator patchMaker memClient s obj
          (fixedSpec desired)).store obj (fixedSpec desired)).store
      = (CreateOrUpdateAnnotated annotator patchMaker memClient s obj
          (fixedSpec desired)).store ∧
    memClient.Get (CreateOrUpdateAnnotated annotator patchMaker memClient s obj
        (fixedSpec desired)).store (ObjectKeyFromObject obj) obj = Except.ok stamped ∧
    memClient.Get (CreateOrUpdateAnnotated annotator patchMaker memClient
        (CreateOrUpdateAnnotated annotator patchMaker memClient s obj
          (fixedSpec desired)).store obj (fixedSpec desired)).store
      (ObjectKeyFromObject obj) obj = Except.ok stamped := by
  have hT : stamped.GoType = obj.GoType := by rw [hOnly]
  have hK : ObjectKeyFromObject stamped = ObjectKeyFromObject obj := by
    rw [hOnly]; rfl
  have hS : ({ stamped with Spec := desired } : Object) = stamped := by
    rw [hOnly]
  have hfind : s.find? (isAt obj.GoType (ObjectKeyFromObject obj)) = none := by
    have := hAbsent
    simp only [memClient, memGet] at this
    split at this
    · cases this
    · assumption
  have hany : s.any (isAt obj.GoType (ObjectKeyFromObject obj)) = false := by
    rw [List.find?_eq_none] at hfind
    rw [List.any_eq_false]
    intro x hx
    exact hfind x hx
  have hat : isAt obj.GoType (ObjectKeyFromObject obj) stamped = true := by
    simp [isAt, hT, hK]
  have hm1 : mutate (fixedSpec desired) (ObjectKeyFromObject obj) obj
      = Except.ok { obj with Spec := desired } := by
    simp [mutate, fixedSpec, ObjectKeyFromObject]
  have hc : memClient.Create s stamped = (none, s ++ [stamped]) := by
    simp [memClient, memCreate, hT, hK, hany]
  have h1 : CreateOrUpdateAnnotated annotator patchMaker memClient s obj (fixedSpec desired)
      = ⟨true, none, s ++ [stamped],
          [Call.Get (ObjectKeyFromObject obj) (some Error.NotFound), Call.Mutate none,
           Call.SetLastAppliedAnnotation { obj with Spec := desired } none,
           Call.Create stamped none]⟩ := by
    simp [CreateOrUpdateAnnotated, hAbsent, apierrors.IsNotFound, hm1, hStamp, hc]
  have hget : memClient.Get (s ++ [stamped]) (ObjectKeyFromObject obj) obj
      = Except.ok stamped := by
    simp [memClient, memGet, List.find?_append, hfind, hat]
  have hm2 : mutate (fixedSpec desired) (ObjectKeyFromObject obj) stamped
      = Except.ok stamped := by
    simp [mutate, fixedSpec, hS, hK]
  have h2 : CreateOrUpdateAnnotated annotator patchMaker memClient (s ++ [stamped]) obj
      (fixedSpec desired)
      = ⟨false, none, s ++ [stamped],
          [Call.Get (ObjectKeyFromObject obj) none, Call.Mutate none,
           Call.Calculate stamped stamped (calculateOptions stamped) none]⟩ := by
    simp [CreateOrUpdateAnnotated, hget, hm2, hDiff]
  rw [h1]
  simp only
  rw [h2]
  simp [Call.isWrite, hget]

/-- Witness for C10: the service `crdb` with the desired spec `ports: 26257`, an empty
store, the annotator and the patch maker of the instances. -/
theorem CreateOrUpdateAnnotated_twice_witness :
    (CreateOrUpdateAnnotated specAnnotator fieldPatchMaker memClient [] crdbService
        (fixedSpec "ports: 26257")).upserted = true ∧
    (CreateOrUpdateAnnotated specAnnotator fieldPatchMaker memClient
        (CreateOrUpdateAnnotated specAnnotator fieldPatchMaker memClient [] crdbService
          (fixedSpec "ports: 26257")).store crdbService
        (fixedSpec "ports: 26257")).upserted = false ∧
    (CreateOrUpdateAnnotated specAnnotator fieldPatchMaker memClient
        (CreateOrUpdateAnnotated specAnnotator fieldPatchMaker memClient [] crdbService
          (fixedSpec "ports: 26257")).store crdbService
        (fixedSpec "ports: 26257")).store
      = [⟨ObjectType.Service, "db", "crdb", [( LastAppliedAnnotation, "ports: 26257")],
          "ports: 26257", ""⟩] :=
  have h := CreateOrUpdateAnnotated_twice specAnnotator fieldPatchMaker [] crdbService
    "ports: 26257"
    ⟨ObjectType.Service, "db", "crdb", [( LastAppliedAnnotation, "ports: 26257")],
      "ports: 26257", ""⟩
    rfl rfl rfl rfl
  ⟨h.1.1, h.2.1.1, by decide⟩

end kube

/-! ## Theorems about `deploy.Act` over the annotated create-or-update -/

namespace actor
open deploy

/-- However a pass ends, `CancelLoop` was invoked at most once. -/
theorem Ending.count_cancel {bs : List Builder} {err : Option Error} {trace : List Event}
    (h : Ending bs err trace) : trace.count Event.CancelLoop ≤ 1 := by
  obtain ⟨q, hq, hcase⟩ := h
  have h0 := count_cancel_quiet q hq
  rcases hcase with ⟨_, h2, _⟩ | ⟨b, c, e, _, h2, _⟩ | ⟨b, _, h2, _⟩
  · rw [h2, h0]; exact Nat.zero_le _
  · rw [h2, List.count_append, h0]; simp [List.count_cons]
  · rw [h2, List.count_append, h0]; simp [List.count_cons]

/-- The writes the store accepted during a pass are as many as the `CancelLoop` calls of
the pass. -/
theorem runBuilders_writes {σ : Type} (annotator : kube.Annotator)
    (patchMaker : kube.PatchMaker) (c : kube.Client σ) (placeholder : Builder → kube.Object)
    (build : Builder → kube.MutateFn) (bs : List Builder) (w : σ × List kube.Call) :
    kube.successfulWrites
        (runBuilders (resource.Reconcile annotator patchMaker c placeholder build) bs w).world.2
      = kube.successfulWrites w.2 +
        (runBuilders (resource.Reconcile annotator patchMaker c placeholder build)
          bs w).trace.count Event.CancelLoop := by
  induction bs generalizing w with
  | nil => simp [runBuilders]
  | cons b bs ih =>
    obtain ⟨hw, hu, _, _⟩ := kube.CreateOrUpdateAnnotated_writes annotator patchMaker c w.1
      (placeholder b) (build b)
    simp only [runBuilders, resource.Reconcile]
    rcases he : (kube.CreateOrUpdateAnnotated annotator patchMaker c w.1 (placeholder b)
      (build b)).err with _ | e
    · rcases hc : (kube.CreateOrUpdateAnnotated annotator patchMaker c w.1 (placeholder b)
        (build b)).upserted with _ | _
      · simp only [Bool.false_eq_true, if_false]
        rw [ih]
        simp only [resource.Reconcile, kube.successfulWrites, List.countP_append]
        rw [hc] at hw
        simp only [kube.successfulWrites, Bool.false_eq_true, if_false] at hw
        rw [hw, List.count_cons]
        simp
      · simp only [if_true]
        rw [hc] at hw
        simp only [kube.successfulWrites, if_true] at hw
        simp [kube.successfulWrites, List.countP_append, hw, List.count_cons]
    · have hc : (kube.CreateOrUpdateAnnotated annotator patchMaker c w.1 (placeholder b)
        (build b)).upserted = false := by
        cases hcu : (kube.CreateOrUpdateAnnotated annotator patchMaker c w.1 (placeholder b)
          (build b)).upserted with
        | false => rfl
        | true => rw [hu hcu] at he; cases he
      rw [hc] at hw
      simp only [kube.successfulWrites, Bool.false_eq_true, if_false] at hw
      simp [kube.successfulWrites, List.countP_append, hw, List.count_cons]

/-- A pass issues at most one write. -/
theorem runBuilders_issued_writes {σ : Type} (annotator : kube.Annotator)
    (patchMaker : kube.PatchMaker) (c : kube.Client σ) (placeholder : Builder → kube.Object)
    (build : Builder → kube.MutateFn) (bs : List Builder) (w : σ × List kube.Call) :
    kube.issuedWrites
        (runBuilders (resource.Reconcile annotator patchMaker c placeholder build) bs w).world.2
      ≤ kube.issuedWrites w.2 + 1 := by
  induction bs generalizing w with
  | nil => simp [runBuilders]
  | cons b bs ih =>
    obtain ⟨_, _, hle, hz⟩ := kube.CreateOrUpdateAnnotated_writes annotator patchMaker c w.1
      (placeholder b) (build b)
    have happ : kube.issuedWrites (w.2 ++ (kube.CreateOrUpdateAnnotated annotator patchMaker c
        w.1 (placeholder b) (build b)).calls)
        = kube.issuedWrites w.2 + kube.issuedWrites (kube.CreateOrUpdateAnnotated annotator
          patchMaker c w.1 (placeholder b) (build b)).calls := by
      simp [kube.issuedWrites, List.countP_append]
    simp only [runBuilders, resource.Reconcile]
    rcases he : (kube.CreateOrUpdateAnnotated annotator patchMaker c w.1 (placeholder b)
      (build b)).err with _ | e
    · rcases hc : (kube.CreateOrUpdateAnnotated annotator patchMaker c w.1 (placeholder b)
        (build b)).upserted with _ | _
      · simp only [Bool.false_eq_true, if_false]
        refine le_trans (ih _) ?_
        simp only [resource.Reconcile]
        rw [happ, hz hc he]
      · simp only [if_true]
        rw [happ]
        omega
    · simp only
      rw [happ]
      omega

/-- C2. One call of `deploy.Act`, each builder being reconciled through
`CreateOrUpdateAnnotated`, makes at most one write that the store accepts (a create or
an update), whatever the store, the cluster and the builders; it makes one exactly when
it invokes `CancelLoop`; and it issues at most one write at all, refused ones
included. -/
theorem Act_at_most_one_write {σ : Type} (annotator : kube.Annotator)
    (patchMaker : kube.PatchMaker) (c : kube.Client σ) (placeholder : Builder → kube.Object)
    (build : Builder → kube.MutateFn) (cluster : Cluster) (s : σ) :
    kube.successfulWrites
        (Act (resource.Reconcile annotator patchMaker c placeholder build) cluster
          (s, [])).world.2 ≤ 1 ∧
    kube.successfulWrites
        (Act (resource.Reconcile annotator patchMaker c placeholder build) cluster
          (s, [])).world.2
      = (Act (resource.Reconcile annotator patchMaker c placeholder build) cluster
          (s, [])).trace.count Event.CancelLoop ∧
    kube.issuedWrites
        (Act (resource.Reconcile annotator patchMaker c placeholder build) cluster
          (s, [])).world.2 ≤ 1 := by
  have hi := runBuilders_issued_writes annotator patchMaker c placeholder build
    (builderOrder cluster) (s, [])
  rw [← Act_eq_runBuilders] at hi
  simp only [kube.issuedWrites, List.countP_nil, Nat.zero_add] at hi
  have hcount := (Act_ending (resource.Reconcile annotator patchMaker c placeholder build)
    cluster (s, [])).count_cancel
  have hw := runBuilders_writes annotator patchMaker c placeholder build
    (builderOrder cluster) (s, [])
  rw [← Act_eq_runBuilders] at hw
  simp only [kube.successfulWrites, List.countP_nil, Nat.zero_add] at hw
  simp only [kube.successfulWrites, kube.issuedWrites]
  omega

end actor

/-! ## Theorems about the paths of `CreateOrUpdateAnnotated` -/

namespace kube

/-- A mutate function that succeeds and keeps the object key passes `mutate`. -/
theorem mutate_ok_of_key_kept (f : MutateFn) (obj obj1 : Object) (key : ObjectKey)
    (hf : f obj = Except.ok obj1) (hKey : ObjectKeyFromObject obj1 = key) :
    mutate f key obj = Except.ok obj1 := by
  simp [mutate, hf, hKey]

/-- C11. When the fetch reports not-found and the mutate function succeeds and keeps the
object key, `CreateOrUpdateAnnotated` stamps the last-applied annotation on the mutated
object and, the stamp made, issues one create of the stamped object and no update: the
calls are the fetch, the mutate, the stamp and that create. It returns `(true, nil)` when
the create succeeds, and `(false, err)` with the error of the create otherwise. A stamp
that fails is returned as the error, with no create. -/
theorem CreateOrUpdateAnnotated_creates_when_absent {σ : Type} (annotator : Annotator)
    (patchMaker : PatchMaker) (c : Client σ) (s : σ) (obj : Object) (f : MutateFn)
    (err : Error) (obj1 : Object)
    (hGet : c.Get s (ObjectKeyFromObject obj) obj = Except.error err)
    (hNotFound : apierrors.IsNotFound err = true)
    (hf : f obj = Except.ok obj1)
    (hKey : ObjectKeyFromObject obj1 = ObjectKeyFromObject obj) :
    (∀ obj2, annotator.SetLastAppliedAnnotation obj1 = Except.ok obj2 →
      (CreateOrUpdateAnnotated annotator patchMaker c s obj f).calls
        = [Call.Get (ObjectKeyFromObject obj) (some err), Call.Mutate none,
           Call.SetLastAppliedAnnotation obj1 none, Call.Create obj2 (c.Create s obj2).1] ∧
      (CreateOrUpdateAnnotated annotator patchMaker c s obj f).calls.countP Call.isCreate
        = 1 ∧
      (CreateOrUpdateAnnotated annotator patchMaker c s obj f).calls.countP Call.isUpdate
        = 0 ∧
      (CreateOrUpdateAnnotated annotator patchMaker c s obj f).store = (c.Create s obj2).2 ∧
      ((c.Create s obj2).1 = none →
        (CreateOrUpdateAnnotated annotator patchMaker c s obj f).upserted = true ∧
        (CreateOrUpdateAnnotated annotator patchMaker c s obj f).err = none) ∧
      (∀ e, (c.Create s obj2).1 = some e →
        (CreateOrUpdateAnnotated annotator patchMaker c s obj f).upserted = false ∧
        (CreateOrUpdateAnnotated annotator patchMaker c s obj f).err = some e)) ∧
    (∀ e, annotator.SetLastAppliedAnnotation obj1 = Except.error e →
      (CreateOrUpdateAnnotated annotator patchMaker c s obj f).calls
        = [Call.Get (ObjectKeyFromObject obj) (some err), Call.Mutate none,
           Call.SetLastAppliedAnnotation obj1 (some e)] ∧
      (CreateOrUpdateAnnotated annotator patchMaker c s obj f).upserted = false ∧
      (CreateOrUpdateAnnotated annotator patchMaker c s obj f).err = some e) := by
  have hm := mutate_ok_of_key_kept f obj obj1 (ObjectKeyFromObject obj) hf hKey
  constructor
  · intro obj2 hStamp
    rcases hc : c.Create s obj2 with ⟨_ | e, s'⟩ <;>
      simp [CreateOrUpdateAnnotated, hGet, hNotFound, hm, hStamp, hc, Call.isCreate,
        Call.isUpdate, List.countP_cons]
  · intro e hStamp
    simp [CreateOrUpdateAnnotated, hGet, hNotFound, hm, hStamp]

/-- Witness for C11: the service `crdb` is built with the spec `ports: 26257` on an empty
store. -/
theorem CreateOrUpdateAnnotated_creates_when_absent_witness :
    (CreateOrUpdateAnnotated specAnnotator fieldPatchMaker memClient [] crdbService
      (fixedSpec "ports: 26257")).calls
      = [Call.Get ⟨"db", "crdb"⟩ (some Error.NotFound), Call.Mutate none,
         Call.SetLastAppliedAnnotation
           ⟨ObjectType.Service, "db", "crdb", [], "ports: 26257", ""⟩ none,
         Call.Create
           ⟨ObjectType.Service, "db", "crdb", [( LastAppliedAnnotation, "ports: 26257")],
             "ports: 26257", ""⟩ none] ∧
    (CreateOrUpdateAnnotated specAnnotator fieldPatchMaker memClient [] crdbService
      (fixedSpec "ports: 26257")).upserted = true ∧
    (CreateOrUpdateAnnotated specAnnotator fieldPatchMaker memClient [] crdbService
      (fixedSpec "ports: 26257")).err = none :=
  have h := (CreateOrUpdateAnnotated_creates_when_absent specAnnotator fieldPatchMaker
    memClient [] crdbService (fixedSpec "ports: 26257") Error.NotFound
    ⟨ObjectType.Service, "db", "crdb", [], "ports: 26257", ""⟩
    rfl rfl rfl rfl).1
    ⟨ObjectType.Service, "db", "crdb", [( LastAppliedAnnotation, "ports: 26257")],
      "ports: 26257", ""⟩ rfl
  ⟨h.1, h.2.2.2.2.1 rfl⟩

/-- C12. When the object is found, the mutate succeeds and the patch maker reports an
empty patch between the snapshot taken before the mutation and the mutated object,
`CreateOrUpdateAnnotated` returns `(false, nil)` and leaves the store as it was: the
calls are the fetch, the mutate and the diff, with no create, no update and no stamp of
the last-applied annotation. -/
theorem CreateOrUpdateAnnotated_noop_when_patch_empty {σ : Type} (annotator : Annotator)
    (patchMaker : PatchMaker) (c : Client σ) (s : σ) (obj : Object) (f : MutateFn)
    (obj0 obj1 : Object) (patchResult : PatchResult)
    (hGet : c.Get s (ObjectKeyFromObject obj) obj = Except.ok obj0)
    (hMutate : mutate f (ObjectKeyFromObject obj) obj0 = Except.ok obj1)
    (hDiff : patchMaker.Calculate obj0 obj1 (calculateOptions obj1) = Except.ok patchResult)
    (hEmpty : patchResult.IsEmpty = true) :
    (CreateOrUpdateAnnotated annotator patchMaker c s obj f).upserted = false ∧
    (CreateOrUpdateAnnotated annotator patchMaker c s obj f).err = none ∧
    (CreateOrUpdateAnnotated annotator patchMaker c s obj f).store = s ∧
    (CreateOrUpdateAnnotated annotator patchMaker c s obj f).calls
      = [Call.Get (ObjectKeyFromObject obj) none, Call.Mutate none,
         Call.Calculate obj0 obj1 (calculateOptions obj1) none] ∧
    (∀ call ∈ (CreateOrUpdateAnnotated annotator patchMaker c s obj f).calls,
      call.isWrite = false ∧ call.isStamp = false) := by
  simp [CreateOrUpdateAnnotated, hGet, hMutate, hDiff, hEmpty, Call.isWrite, Call.isStamp]

/-- Witness for C12: the stored service differs from what the mutate function makes of
it in its status only, which `IgnoreStatusFields` leaves out of the diff. -/
theorem CreateOrUpdateAnnotated_noop_when_patch_empty_witness :
    mutate (setStatus "degraded") (ObjectKeyFromObject crdbService) storedService
      = Except.ok { storedService with Status := "degraded" } ∧
    (CreateOrUpdateAnnotated specAnnotator fieldPatchMaker memClient [storedService]
      crdbService (setStatus "degraded")).upserted = false ∧
    (CreateOrUpdateAnnotated specAnnotator fieldPatchMaker memClient [storedService]
      crdbService (setStatus "degraded")).err = none ∧
    (CreateOrUpdateAnnotated specAnnotator fieldPatchMaker memClient [storedService]
      crdbService (setStatus "degraded")).store = [storedService] :=
  have h := CreateOrUpdateAnnotated_noop_when_patch_empty specAnnotator fieldPatchMaker
    memClient [storedService] crdbService (setStatus "degraded") storedService
    { storedService with Status := "degraded" } ⟨true⟩ rfl rfl rfl rfl
  ⟨rfl, h.1, h.2.1, h.2.2.1⟩

/-- C13. When the object is found, the mutate succeeds and the patch is not empty,
`CreateOrUpdateAnnotated` stamps the last-applied annotation on the mutated object after
the mutate and the diff, and the update that follows a successful stamp is an update of
the object the stamp returned. So whenever `(true, nil)` is returned, the last two calls
are the stamp of the mutated object and the accepted update of the stamped object: the
object written carries the annotation computed from the state that was written. A stamp
that fails is returned as the error, with no update. -/
theorem CreateOrUpdateAnnotated_update_writes_stamped {σ : Type} (annotator : Annotator)
    (patchMaker : PatchMaker) (c : Client σ) (s : σ) (obj : Object) (f : MutateFn)
    (obj0 obj1 : Object) (patchResult : PatchResult)
    (hGet : c.Get s (ObjectKeyFromObject obj) obj = Except.ok obj0)
    (hMutate : mutate f (ObjectKeyFromObject obj) obj0 = Except.ok obj1)
    (hDiff : patchMaker.Calculate obj0 obj1 (calculateOptions obj1) = Except.ok patchResult)
    (hNonEmpty : patchResult.IsEmpty = false) :
    (∀ obj2, annotator.SetLastAppliedAnnotation obj1 = Except.ok obj2 →
      (CreateOrUpdateAnnotated annotator patchMaker c s obj f).calls
        = [Call.Get (ObjectKeyFromObject obj) none, Call.Mutate none,
           Call.Calculate obj0 obj1 (calculateOptions obj1) none,
           Call.SetLastAppliedAnnotation obj1 none, Call.Update obj2 (c.Update s obj2).1] ∧
      (CreateOrUpdateAnnotated annotator patchMaker c s obj f).upserted
        = decide ((c.Update s obj2).1 = none) ∧
      (CreateOrUpdateAnnotated annotator patchMaker c s obj f).err = (c.Update s obj2).1 ∧
      (CreateOrUpdateAnnotated annotator patchMaker c s obj f).store = (c.Update s obj2).2) ∧
    (∀ e, annotator.SetLastAppliedAnnotation obj1 = Except.error e →
      (CreateOrUpdateAnnotated annotator patchMaker c s obj f).calls
        = [Call.Get (ObjectKeyFromObject obj) none, Call.Mutate none,
           Call.Calculate obj0 obj1 (calculateOptions obj1) none,
           Call.SetLastAppliedAnnotation obj1 (some e)] ∧
      (CreateOrUpdateAnnotated annotator patchMaker c s obj f).upserted = false ∧
      (CreateOrUpdateAnnotated annotator patchMaker c s obj f).err = some e) ∧
    ((CreateOrUpdateAnnotated annotator patchMaker c s obj f).upserted = true →
      ∃ obj2, annotator.SetLastAppliedAnnotation obj1 = Except.ok obj2 ∧
        (CreateOrUpdateAnnotated annotator patchMaker c s obj f).calls
          = [Call.Get (ObjectKeyFromObject obj) none, Call.Mutate none,
             Call.Calculate obj0 obj1 (calculateOptions obj1) none,
             Call.SetLastAppliedAnnotation obj1 none, Call.Update obj2 none] ∧
        (CreateOrUpdateAnnotated annotator patchMaker c s obj f).err = none) := by
  refine ⟨?_, ?_, ?_⟩
  · intro obj2 hStamp
    rcases hu : c.Update s obj2 with ⟨_ | e, s'⟩ <;>
      simp [CreateOrUpdateAnnotated, hGet, hMutate, hDiff, hNonEmpty, hStamp, hu]
  · intro e hStamp
    simp [CreateOrUpdateAnnotated, hGet, hMutate, hDiff, hNonEmpty, hStamp]
  · rcases hStamp : annotator.SetLastAppliedAnnotation obj1 with e | obj2
    · simp [CreateOrUpdateAnnotated, hGet, hMutate, hDiff, hNonEmpty, hStamp]
    · rcases hu : c.Update s obj2 with ⟨_ | e, s'⟩ <;>
        simp [CreateOrUpdateAnnotated, hGet, hMutate, hDiff, hNonEmpty, hStamp, hu]

/-- Witness for C13: the stored service is rebuilt with another spec; the update carries
the last-applied record of the new spec. -/
theorem CreateOrUpdateAnnotated_update_writes_stamped_witness :
    (CreateOrUpdateAnnotated specAnnotator fieldPatchMaker memClient [storedService]
      crdbService (fixedSpec "ports: 8080")).upserted = true ∧
    (CreateOrUpdateAnnotated specAnnotator fieldPatchMaker memClient [storedService]
      crdbService (fixedSpec "ports: 8080")).store
      = [⟨ObjectType.Service, "db", "crdb", [( LastAppliedAnnotation, "ports: 8080")],
          "ports: 8080", "ready"⟩] ∧
    ∃ obj2, specAnnotator.SetLastAppliedAnnotation { storedService with Spec := "ports: 8080" }
        = Except.ok obj2 ∧
      (CreateOrUpdateAnnotated specAnnotator fieldPatchMaker memClient [storedService]
        crdbService (fixedSpec "ports: 8080")).calls
        = [Call.Get (ObjectKeyFromObject crdbService) none, Call.Mutate none,
           Call.Calculate storedService { storedService with Spec := "ports: 8080" }
             (calculateOptions { storedService with Spec := "ports: 8080" }) none,
           Call.SetLastAppliedAnnotation { storedService with Spec := "ports: 8080" } none,
           Call.Update obj2 none] ∧
      (CreateOrUpdateAnnotated specAnnotator fieldPatchMaker memClient [storedService]
        crdbService (fixedSpec "ports: 8080")).err = none :=
  ⟨by decide, by decide,
   (CreateOrUpdateAnnotated_update_writes_stamped specAnnotator fieldPatchMaker memClient
      [storedService] crdbService (fixedSpec "ports: 8080") storedService
      { storedService with Spec := "ports: 8080" } ⟨false⟩ rfl rfl rfl rfl).2.2
      (by decide)⟩

end kube

/-! ## Theorems about failures, diff options and writes of `CreateOrUpdateAnnotated` -/

namespace kube

/-- C14. `CreateOrUpdateAnnotated` swallows no failure and retries nothing. Whichever
step fails (the fetch with an error that is not a not-found error, the mutate function
or the identity check, the stamp, the diff, the create or the update), the call returns
`upserted = false` and that very error, a store error such as a conflict included, and
the failing call is the last call made. Conversely the error returned is the failure of
a call made: the error is `e` exactly when a call failed with `e`; no call but the last
one failed; an error comes with `upserted = false`; and no step is made twice. -/
theorem CreateOrUpdateAnnotated_reports_failures {σ : Type} (annotator : Annotator)
    (patchMaker : PatchMaker) (c : Client σ) (s : σ) (obj : Object) (f : MutateFn) :
    (∀ e, c.Get s (ObjectKeyFromObject obj) obj = Except.error e →
      apierrors.IsNotFound e = false →
      CreateOrUpdateAnnotated annotator patchMaker c s obj f
        = ⟨false, some e, s, [Call.Get (ObjectKeyFromObject obj) (some e)]⟩) ∧
    (∀ e0 e, c.Get s (ObjectKeyFromObject obj) obj = Except.error e0 →
      apierrors.IsNotFound e0 = true →
      mutate f (ObjectKeyFromObject obj) obj = Except.error e →
      CreateOrUpdateAnnotated annotator patchMaker c s obj f
        = ⟨false, some e, s,
            [Call.Get (ObjectKeyFromObject obj) (some e0), Call.Mutate (some e)]⟩) ∧
    (∀ e0 obj1 e, c.Get s (ObjectKeyFromObject obj) obj = Except.error e0 →
      apierrors.IsNotFound e0 = true →
      mutate f (ObjectKeyFromObject obj) obj = Except.ok obj1 →
      annotator.SetLastAppliedAnnotation obj1 = Except.error e →
      CreateOrUpdateAnnotated annotator patchMaker c s obj f
        = ⟨false, some e, s,
            [Call.Get (ObjectKeyFromObject obj) (some e0), Call.Mutate none,
             Call.SetLastAppliedAnnotation obj1 (some e)]⟩) ∧
    (∀ e0 obj1 obj2 e s', c.Get s (ObjectKeyFromObject obj) obj = Except.error e0 →
      apierrors.IsNotFound e0 = true →
      mutate f (ObjectKeyFromObject obj) obj = Except.ok obj1 →
      annotator.SetLastAppliedAnnotation obj1 = Except.ok obj2 →
      c.Create s obj2 = (some e, s') →
      CreateOrUpdateAnnotated annotator patchMaker c s obj f
        = ⟨false, some e, s',
            [Call.Get (ObjectKeyFromObject obj) (some e0), Call.Mutate none,
             Call.SetLastAppliedAnnotation obj1 none, Call.Create obj2 (some e)]⟩) ∧
    (∀ obj0 e, c.Get s (ObjectKeyFromObject obj) obj = Except.ok obj0 →
      mutate f (ObjectKeyFromObject obj) obj0 = Except.error e →
      CreateOrUpdateAnnotated annotator patchMaker c s obj f
        = ⟨false, some e, s,
            [Call.Get (ObjectKeyFromObject obj) none, Call.Mutate (some e)]⟩) ∧
    (∀ obj0 obj1 e, c.Get s (ObjectKeyFromObject obj) obj = Except.ok obj0 →
      mutate f (ObjectKeyFromObject obj) obj0 = Except.ok obj1 →
      patchMaker.Calculate obj0 obj1 (calculateOptions obj1) = Except.error e →
      CreateOrUpdateAnnotated annotator patchMaker c s obj f
        = ⟨false, some e, s,
            [Call.Get (ObjectKeyFromObject obj) none, Call.Mutate none,
             Call.Calculate obj0 obj1 (calculateOptions obj1) (some e)]⟩) ∧
    (∀ obj0 obj1 patchResult e, c.Get s (ObjectKeyFromObject obj) obj = Except.ok obj0 →
      mutate f (ObjectKeyFromObject obj) obj0 = Except.ok obj1 →
      patchMaker.Calculate obj0 obj1 (calculateOptions obj1) = Except.ok patchResult →
      patchResult.IsEmpty = false →
      annotator.SetLastAppliedAnnotation obj1 = Except.error e →
      CreateOrUpdateAnnotated annotator patchMaker c s obj f
        = ⟨false, some e, s,
            [Call.Get (ObjectKeyFromObject obj) none, Call.Mutate none,
             Call.Calculate obj0 obj1 (calculateOptions obj1) none,
             Call.SetLastAppliedAnnotation obj1 (some e)]⟩) ∧
    (∀ obj0 obj1 patchResult obj2 e s',
      c.Get s (ObjectKeyFromObject obj) obj = Except.ok obj0 →
      mutate f (ObjectKeyFromObject obj) obj0 = Except.ok obj1 →
      patchMaker.Calculate obj0 obj1 (calculateOptions obj1) = Except.ok patchResult →
      patchResult.IsEmpty = false →
      annotator.SetLastAppliedAnnotation obj1 = Except.ok obj2 →
      c.Update s obj2 = (some e, s') →
      CreateOrUpdateAnnotated annotator patchMaker c s obj f
        = ⟨false, some e, s',
            [Call.Get (ObjectKeyFromObject obj) none, Call.Mutate none,
             Call.Calculate obj0 obj1 (calculateOptions obj1) none,
             Call.SetLastAppliedAnnotation obj1 none, Call.Update obj2 (some e)]⟩) ∧
    (∀ e, (CreateOrUpdateAnnotated annotator patchMaker c s obj f).err = some e ↔
      ∃ call ∈ (CreateOrUpdateAnnotated annotator patchMaker c s obj f).calls,
        call.failure = some e) ∧
    (∀ call ∈ (CreateOrUpdateAnnotated annotator patchMaker c s obj f).calls.dropLast,
      call.failure = none) ∧
    ((CreateOrUpdateAnnotated annotator patchMaker c s obj f).err ≠ none →
      (CreateOrUpdateAnnotated annotator patchMaker c s obj f).upserted = false) ∧
    ((CreateOrUpdateAnnotated annotator patchMaker c s obj f).calls.map Call.kind).Nodup := by
  refine ⟨?_, ?_, ?_, ?_, ?_, ?_, ?_, ?_, ?_⟩
  · intro e hg hnf
    simp [CreateOrUpdateAnnotated, hg, hnf]
  · intro e0 e hg hnf hm
    simp [CreateOrUpdateAnnotated, hg, hnf, hm]
  · intro e0 obj1 e hg hnf hm ha
    simp [CreateOrUpdateAnnotated, hg, hnf, hm, ha]
  · intro e0 obj1 obj2 e s' hg hnf hm ha hc
    simp [CreateOrUpdateAnnotated, hg, hnf, hm, ha, hc]
  · intro obj0 e hg hm
    simp [CreateOrUpdateAnnotated, hg, hm]
  · intro obj0 obj1 e hg hm hp
    simp [CreateOrUpdateAnnotated, hg, hm, hp]
  · intro obj0 obj1 pr e hg hm hp he ha
    simp [CreateOrUpdateAnnotated, hg, hm, hp, he, ha]
  · intro obj0 obj1 pr obj2 e s' hg hm hp he ha hu
    simp [CreateOrUpdateAnnotated, hg, hm, hp, he, ha, hu]
  · rcases CreateOrUpdateAnnotated_cases annotator patchMaker c s obj f with
      ⟨_, _, hnf, h⟩ | ⟨_, _, _, hnf, _, h⟩ | ⟨_, _, _, _, hnf, _, _, h⟩ |
      ⟨_, _, _, _, _, _, hnf, _, _, _, h⟩ | ⟨_, _, _, _, _, hnf, _, _, _, h⟩ |
      ⟨_, _, _, _, h⟩ | ⟨_, _, _, _, _, _, h⟩ | ⟨_, _, _, _, _, _, _, h⟩ |
      ⟨_, _, _, _, _, _, _, _, _, h⟩ | ⟨_, _, _, _, _, _, _, _, _, _, _, _, h⟩ |
      ⟨_, _, _, _, _, _, _, _, _, _, _, h⟩
    all_goals
      rw [h]
      first
        | simp [Call.failure, Call.kind, hnf]
        | simp [Call.failure, Call.kind]

/-- Witness for C14: on a fetch that fails with a not-found error wrapped by the client,
the object is created and no error is returned; an update refused with a conflict is
returned as that conflict; a failing mutate function is returned as its error, with no
store write. -/
theorem CreateOrUpdateAnnotated_reports_failures_witness :
    (CreateOrUpdateAnnotated specAnnotator fieldPatchMaker
      (⟨fun _ _ _ => Except.error (Error.Wrap Error.NotFound "get"), memCreate, memUpdate⟩ :
        Client MemStore)
      [] crdbService (fixedSpec "ports: 26257")).err = none ∧
    (CreateOrUpdateAnnotated specAnnotator fieldPatchMaker
      (⟨fun _ _ _ => Except.error (Error.Wrap Error.NotFound "get"), memCreate, memUpdate⟩ :
        Client MemStore)
      [] crdbService (fixedSpec "ports: 26257")).upserted = true ∧
    CreateOrUpdateAnnotated specAnnotator fieldPatchMaker
      (⟨memGet, memCreate, fun st _ => (some Error.Conflict, st)⟩ : Client MemStore)
      [storedService] crdbService (fixedSpec "ports: 8080")
      = ⟨false, some Error.Conflict, [storedService],
          [Call.Get (ObjectKeyFromObject crdbService) none, Call.Mutate none,
           Call.Calculate storedService { storedService with Spec := "ports: 8080" }
             (calculateOptions { storedService with Spec := "ports: 8080" }) none,
           Call.SetLastAppliedAnnotation { storedService with Spec := "ports: 8080" } none,
           Call.Update
             ⟨ObjectType.Service, "db", "crdb", [( LastAppliedAnnotation, "ports: 8080")],
               "ports: 8080", "ready"⟩ (some Error.Conflict)]⟩ ∧
    CreateOrUpdateAnnotated specAnnotator fieldPatchMaker memClient [] crdbService
      (failing (Error.Errorf "build failed"))
      = ⟨false, some (Error.Errorf "build failed"), [],
          [Call.Get (ObjectKeyFromObject crdbService) (some Error.NotFound),
           Call.Mutate (some (Error.Errorf "build failed"))]⟩ :=
  ⟨by decide, by decide,
   (CreateOrUpdateAnnotated_reports_failures specAnnotator fieldPatchMaker
      (⟨memGet, memCreate, fun st _ => (some Error.Conflict, st)⟩ : Client MemStore)
      [storedService] crdbService (fixedSpec "ports: 8080")).2.2.2.2.2.2.2.1
      storedService { storedService with Spec := "ports: 8080" } ⟨false⟩
      ⟨ObjectType.Service, "db", "crdb", [( LastAppliedAnnotation, "ports: 8080")],
        "ports: 8080", "ready"⟩ Error.Conflict [storedService] rfl rfl rfl rfl rfl rfl,
   (CreateOrUpdateAnnotated_reports_failures specAnnotator fieldPatchMaker memClient []
      crdbService (failing (Error.Errorf "build failed"))).2.1
      Error.NotFound (Error.Errorf "build failed") rfl rfl rfl⟩

/-- C15. Every diff that `CreateOrUpdateAnnotated` asks of the patch maker is asked with
the option `IgnoreStatusFields`, and with the option
`IgnoreVolumeClaimTemplateTypeMetaAndStatus` exactly when the object handed over is a
`StatefulSet`; and for every object found on which the mutate succeeds, that diff is
asked, between the snapshot and the mutated object. -/
theorem CreateOrUpdateAnnotated_diff_options {σ : Type} (annotator : Annotator)
    (patchMaker : PatchMaker) (c : Client σ) (s : σ) (obj : Object) (f : MutateFn) :
    (∀ existing obj1 opts e,
      Call.Calculate existing obj1 opts e
          ∈ (CreateOrUpdateAnnotated annotator patchMaker c s obj f).calls →
        CalculateOption.IgnoreStatusFields ∈ opts ∧
        (CalculateOption.IgnoreVolumeClaimTemplateTypeMetaAndStatus ∈ opts ↔
          obj1.GoType = ObjectType.StatefulSet)) ∧
    (∀ obj0 obj1, c.Get s (ObjectKeyFromObject obj) obj = Except.ok obj0 →
      mutate f (ObjectKeyFromObject obj) obj0 = Except.ok obj1 →
      ∃ e, Call.Calculate obj0 obj1 (calculateOptions obj1) e
        ∈ (CreateOrUpdateAnnotated annotator patchMaker c s obj f).calls) := by
  have hopts : ∀ o : Object, CalculateOption.IgnoreStatusFields ∈ calculateOptions o ∧
      (CalculateOption.IgnoreVolumeClaimTemplateTypeMetaAndStatus ∈ calculateOptions o ↔
        o.GoType = ObjectType.StatefulSet) := by
    intro o
    unfold calculateOptions
    cases o.GoType <;> simp
  constructor
  · intro existing obj1 opts e hmem
    rcases CreateOrUpdateAnnotated_cases annotator patchMaker c s obj f with
      ⟨_, _, _, h⟩ | ⟨_, _, _, _, _, h⟩ | ⟨_, _, _, _, _, _, _, h⟩ |
      ⟨_, _, _, _, _, _, _, _, _, _, h⟩ | ⟨_, _, _, _, _, _, _, _, _, h⟩ |
      ⟨_, _, _, _, h⟩ | ⟨_, _, _, _, _, _, h⟩ | ⟨_, _, _, _, _, _, _, h⟩ |
      ⟨_, _, _, _, _, _, _, _, _, h⟩ | ⟨_, _, _, _, _, _, _, _, _, _, _, _, h⟩ |
      ⟨_, _, _, _, _, _, _, _, _, _, _, h⟩
    all_goals
      rw [h] at hmem
      simp at hmem
    all_goals
      obtain ⟨_, rfl, rfl, _⟩ := hmem
      exact hopts _
  · intro obj0 obj1 hGet hMutate
    rcases hp : patchMaker.Calculate obj0 obj1 (calculateOptions obj1) with e | pr
    · exact ⟨some e, by simp [CreateOrUpdateAnnotated, hGet, hMutate, hp]⟩
    · refine ⟨none, ?_⟩
      rcases he : pr.IsEmpty with _ | _
      · rcases ha : annotator.SetLastAppliedAnnotation obj1 with e | obj2
        · simp [CreateOrUpdateAnnotated, hGet, hMutate, hp, he, ha]
        · rcases hu : c.Update s obj2 with ⟨_ | e, s'⟩ <;>
            simp [CreateOrUpdateAnnotated, hGet, hMutate, hp, he, ha, hu]
      · simp [CreateOrUpdateAnnotated, hGet, hMutate, hp, he]

/-- Instance of C15: the options of the diff for a stored statefulset and for a stored
service. -/
theorem CreateOrUpdateAnnotated_diff_options_witness :
    (CreateOrUpdateAnnotated specAnnotator fieldPatchMaker memClient
      [{ crdbStatefulSet with Spec := "replicas: 3" }] crdbStatefulSet
      (fixedSpec "replicas: 3")).calls
      = [Call.Get ⟨"db", "crdb"⟩ none, Call.Mutate none,
         Call.Calculate { crdbStatefulSet with Spec := "replicas: 3" }
           { crdbStatefulSet with Spec := "replicas: 3" }
           [CalculateOption.IgnoreStatusFields,
            CalculateOption.IgnoreVolumeClaimTemplateTypeMetaAndStatus] none] ∧
    (CreateOrUpdateAnnotated specAnnotator fieldPatchMaker memClient [storedService]
      crdbService (fixedSpec "ports: 26257")).calls
      = [Call.Get ⟨"db", "crdb"⟩ none, Call.Mutate none,
         Call.Calculate storedService storedService
           [CalculateOption.IgnoreStatusFields] none] ∧
    (CalculateOption.IgnoreStatusFields
        ∈ [CalculateOption.IgnoreStatusFields,
            CalculateOption.IgnoreVolumeClaimTemplateTypeMetaAndStatus] ∧
      (CalculateOption.IgnoreVolumeClaimTemplateTypeMetaAndStatus
          ∈ [CalculateOption.IgnoreStatusFields,
              CalculateOption.IgnoreVolumeClaimTemplateTypeMetaAndStatus] ↔
        ({ crdbStatefulSet with Spec := "replicas: 3" } : Object).GoType
          = ObjectType.StatefulSet)) :=
  ⟨by decide, by decide,
   (CreateOrUpdateAnnotated_diff_options specAnnotator fieldPatchMaker memClient
      [{ crdbStatefulSet with Spec := "replicas: 3" }] crdbStatefulSet
      (fixedSpec "replicas: 3")).1 { crdbStatefulSet with Spec := "replicas: 3" }
      { crdbStatefulSet with Spec := "replicas: 3" }
      [CalculateOption.IgnoreStatusFields,
       CalculateOption.IgnoreVolumeClaimTemplateTypeMetaAndStatus] none (by decide)⟩

/-- C18, as the code has it. `CreateOrUpdateAnnotated` issues at most one write, a create
or an update and never both, and returns `upserted = true` exactly when a write it
issued was accepted. Every write in its calls is the write the client was asked, with
the error the client returned, and the store after the call is the store that write
left. A call that issues no write leaves the store as it was; and with a store whose
refused writes change nothing, the store is as it was before the call whenever
`upserted = false` is returned. -/
theorem CreateOrUpdateAnnotated_at_most_one_write {σ : Type} (annotator : Annotator)
    (patchMaker : PatchMaker) (c : Client σ) (s : σ) (obj : Object) (f : MutateFn) :
    issuedWrites (CreateOrUpdateAnnotated annotator patchMaker c s obj f).calls ≤ 1 ∧
    ((CreateOrUpdateAnnotated annotator patchMaker c s obj f).calls.countP Call.isCreate = 0 ∨
      (CreateOrUpdateAnnotated annotator patchMaker c s obj f).calls.countP Call.isUpdate
        = 0) ∧
    ((CreateOrUpdateAnnotated annotator patchMaker c s obj f).upserted = true ↔
      ∃ call ∈ (CreateOrUpdateAnnotated annotator patchMaker c s obj f).calls,
        call.isSuccessfulWrite = true) ∧
    (∀ o e, Call.Create o e ∈ (CreateOrUpdateAnnotated annotator patchMaker c s obj f).calls →
      c.Create s o = (e, (CreateOrUpdateAnnotated annotator patchMaker c s obj f).store)) ∧
    (∀ o e, Call.Update o e ∈ (CreateOrUpdateAnnotated annotator patchMaker c s obj f).calls →
      c.Update s o = (e, (CreateOrUpdateAnnotated annotator patchMaker c s obj f).store)) ∧
    (issuedWrites (CreateOrUpdateAnnotated annotator patchMaker c s obj f).calls = 0 →
      (CreateOrUpdateAnnotated annotator patchMaker c s obj f).store = s) ∧
    ((∀ st o e st', c.Create st o = (some e, st') → st' = st) →
      (∀ st o e st', c.Update st o = (some e, st') → st' = st) →
      (CreateOrUpdateAnnotated annotator patchMaker c s obj f).upserted = false →
      (CreateOrUpdateAnnotated annotator patchMaker c s obj f).store = s) := by
  rcases CreateOrUpdateAnnotated_cases annotator patchMaker c s obj f with
    ⟨_, _, _, h⟩ | ⟨_, _, _, _, _, h⟩ | ⟨_, _, _, _, _, _, _, h⟩ |
    ⟨_, _, _, _, _, _, _, _, _, hc, h⟩ | ⟨_, _, _, _, _, _, _, _, hc, h⟩ |
    ⟨_, _, _, _, h⟩ | ⟨_, _, _, _, _, _, h⟩ | ⟨_, _, _, _, _, _, _, h⟩ |
    ⟨_, _, _, _, _, _, _, _, _, h⟩ | ⟨_, _, _, _, _, _, _, _, _, _, _, hc, h⟩ |
    ⟨_, _, _, _, _, _, _, _, _, _, hc, h⟩
  all_goals
    rw [h]
    refine ⟨by simp [issuedWrites, Call.isWrite, List.countP_cons],
      by simp [Call.isCreate, Call.isUpdate, List.countP_cons],
      by simp [Call.isSuccessfulWrite], ?_, ?_, ?_, ?_⟩
  all_goals first
    | (intro o e hmem
       simp at hmem
       done)
    | (intro o e hmem
       simp at hmem
       obtain ⟨rfl, rfl⟩ := hmem
       exact hc)
    | (intro _; rfl)
    | (intro hz
       simp [issuedWrites, Call.isWrite, List.countP_cons] at hz)
    | (intro _ _ _; rfl)
    | (intro hCreate _ _; exact hCreate _ _ _ _ hc)
    | (intro _ hUpdate _; exact hUpdate _ _ _ _ hc)

/-- Counterexample to C18 as stated: a store that applies an update and then reports a
timeout. The update of the stored service is answered with an error, so
`upserted = false` is returned, and the store holds the updated service, not the one it
held before the call. -/
theorem CreateOrUpdateAnnotated_refused_write_may_change_store :
    (CreateOrUpdateAnnotated specAnnotator fieldPatchMaker lateErrorClient [storedService]
      crdbService (fixedSpec "ports: 8080")).upserted = false ∧
    (CreateOrUpdateAnnotated specAnnotator fieldPatchMaker lateErrorClient [storedService]
      crdbService (fixedSpec "ports: 8080")).err = some (Error.Errorf "timeout") ∧
    (CreateOrUpdateAnnotated specAnnotator fieldPatchMaker lateErrorClient [storedService]
      crdbService (fixedSpec "ports: 8080")).store
      = [⟨ObjectType.Service, "db", "crdb", [( LastAppliedAnnotation, "ports: 8080")],
          "ports: 8080", "ready"⟩] ∧
    (CreateOrUpdateAnnotated specAnnotator fieldPatchMaker lateErrorClient [storedService]
      crdbService (fixedSpec "ports: 8080")).store ≠ [storedService] := by
  refine ⟨by decide, by decide, by decide, by decide⟩

/-- Witness for C18 as amended: on the in-memory store, whose refused writes change
nothing, a mutate function that moves the stored service to another name has its update
refused and the store is as before; so is it when the update is refused with a
conflict. -/
theorem CreateOrUpdateAnnotated_at_most_one_write_witness :
    (CreateOrUpdateAnnotated specAnnotator fieldPatchMaker memClient [storedService]
      crdbService (rename "db" "crdb-public")).upserted = false ∧
    issuedWrites (CreateOrUpdateAnnotated specAnnotator fieldPatchMaker memClient
      [storedService] crdbService (rename "db" "crdb-public")).calls ≤ 1 ∧
    (CreateOrUpdateAnnotated specAnnotator fieldPatchMaker memClient [storedService]
      crdbService (fixedSpec "ports: 8080")).upserted = true ∧
    (CreateOrUpdateAnnotated specAnnotator fieldPatchMaker
      (⟨memGet, memCreate, fun st _ => (some Error.Conflict, st)⟩ : Client MemStore)
      [storedService] crdbService (fixedSpec "ports: 8080")).store = [storedService] :=
  ⟨by decide,
   (CreateOrUpdateAnnotated_at_most_one_write specAnnotator fieldPatchMaker memClient
      [storedService] crdbService (rename "db" "crdb-public")).1,
   by decide,
   (CreateOrUpdateAnnotated_at_most_one_write specAnnotator fieldPatchMaker
      (⟨memGet, memCreate, fun st _ => (some Error.Conflict, st)⟩ : Client MemStore)
      [storedService] crdbService (fixedSpec "ports: 8080")).2.2.2.2.2.2
      (by
        intro st o e st' h
        simp only [memCreate] at h
        split at h
        · exact (Prod.mk.inj h).2.symm
        · cases (Prod.mk.inj h).1)
      (by
        intro st o e st' h
        exact (Prod.mk.inj h).2.symm)
      (by decide)⟩

end kube

/-! ## Theorems about pod conditions and containers -/

namespace kube

/-- The loop of `GetPodConditionFromList` started at index `k` returns the smallest index
of an entry of the type, shifted by `k`, and the entry. -/
theorem podConditionLoop_first (t : corev1.PodConditionType) (l : List corev1.PodCondition)
    (k i : Nat) (c : corev1.PodCondition) (hi : l[i]? = some c) (ht : c.Type_ = t)
    (hmin : ∀ j c', j < i → l[j]? = some c' → c'.Type_ ≠ t) :
    podConditionLoop t l k = (((k + i : Nat) : Int), some c) := by
  induction l generalizing k i with
  | nil => simp at hi
  | cons x l ih =>
    cases i with
    | zero =>
      simp only [List.getElem?_cons_zero, Option.some.injEq] at hi
      subst hi
      simp [podConditionLoop, ht]
    | succ i =>
      have hx : x.Type_ ≠ t := hmin 0 x (Nat.succ_pos i) (by simp)
      simp only [List.getElem?_cons_succ] at hi
      have := ih (k + 1) i hi (fun j c' hj hc' => hmin (j + 1) c' (by omega) (by simpa using hc'))
      simp only [podConditionLoop, hx, if_false, this]
      congr 2
      omega

/-- The loop of `GetPodConditionFromList` returns `(-1, nil)` exactly when no entry is of
the type. -/
theorem podConditionLoop_none_iff (t : corev1.PodConditionType)
    (l : List corev1.PodCondition) (k : Nat) :
    podConditionLoop t l k = (-1, none) ↔ ∀ c ∈ l, c.Type_ ≠ t := by
  induction l generalizing k with
  | nil => simp [podConditionLoop]
  | cons x l ih =>
    by_cases hx : x.Type_ = t
    · simp [podConditionLoop, hx]
    · simp [podConditionLoop, hx, ih]

/-- The condition returned by the loop of `GetPodConditionFromList` is the first entry of
the type. -/
theorem podConditionLoop_snd (t : corev1.PodConditionType) (l : List corev1.PodCondition)
    (k : Nat) :
    (podConditionLoop t l k).2 = l.find? (fun c => decide (c.Type_ = t)) := by
  induction l generalizing k with
  | nil => rfl
  | cons x l ih =>
    by_cases hx : x.Type_ = t
    · simp [podConditionLoop, hx]
    · simp [podConditionLoop, hx, ih]

/-- C16. `GetPodConditionFromList` returns `(i, the condition at index i)` for the
smallest index `i` whose entry is of the requested type, and `(-1, nil)` exactly when no
entry is of that type, a `nil` and an empty list included; `GetPodCondition` returns the
same on the condition list of the status, and `(-1, nil)` for a `nil` status. -/
theorem GetPodConditionFromList_first (conditions : Option (List corev1.PodCondition))
    (conditionType : corev1.PodConditionType) :
    (∀ (i : Nat) (c : corev1.PodCondition),
      (conditions.getD [])[i]? = some c → c.Type_ = conditionType →
      (∀ (j : Nat) (c' : corev1.PodCondition), j < i →
        (conditions.getD [])[j]? = some c' → c'.Type_ ≠ conditionType) →
      GetPodConditionFromList conditions conditionType = ((i : Int), some c)) ∧
    (GetPodConditionFromList conditions conditionType = (-1, none) ↔
      ∀ c ∈ conditions.getD [], c.Type_ ≠ conditionType) ∧
    GetPodConditionFromList none conditionType = (-1, none) ∧
    GetPodConditionFromList (some []) conditionType = (-1, none) ∧
    GetPodCondition none conditionType = (-1, none) ∧
    (∀ status : corev1.PodStatus,
      GetPodCondition (some status) conditionType
        = GetPodConditionFromList status.Conditions conditionType) := by
  refine ⟨?_, ?_, rfl, rfl, rfl, fun _ => rfl⟩
  · intro i c hi ht hmin
    cases conditions with
    | none => simp at hi
    | some l =>
      have := podConditionLoop_first conditionType l 0 i c hi ht hmin
      simpa [GetPodConditionFromList] using this
  · cases conditions with
    | none => simp [GetPodConditionFromList]
    | some l => simpa [GetPodConditionFromList] using podConditionLoop_none_iff conditionType l 0

/-- Witness for C16: the second of three conditions is the first of type `Ready`. -/
theorem GetPodConditionFromList_first_witness :
    GetPodConditionFromList
      (some [⟨"Initialized", "True"⟩, ⟨"Ready", "False"⟩, ⟨"Ready", "True"⟩]) "Ready"
      = (1, some ⟨"Ready", "False"⟩) ∧
    GetPodConditionFromList (some [⟨"Initialized", "True"⟩]) "Ready" = (-1, none) :=
  ⟨(GetPodConditionFromList_first
      (some [⟨"Initialized", "True"⟩, ⟨"Ready", "False"⟩, ⟨"Ready", "True"⟩]) "Ready").1
      1 ⟨"Ready", "False"⟩ rfl rfl
      (by
        intro j c' hj hc'
        have hj0 : j = 0 := by omega
        subst hj0
        simp at hc'
        subst hc'
        decide),
   by decide⟩

/-- C17. `IsPodReady`, which is `IsPodReadyConditionTrue` on the status of the pod,
returns true exactly when the conditions of the status hold an entry of type `Ready` and
the first such entry has status `True`; it returns false when no entry is of type
`Ready`, and when the first one has another status, `False` and `Unknown` included. -/
theorem IsPodReady_iff_first_ready_true (pod : corev1.Pod) :
    IsPodReady pod = IsPodReadyConditionTrue pod.Status ∧
    (IsPodReady pod = true ↔
      ∃ c, (pod.Status.Conditions.getD []).find?
          (fun c => decide (c.Type_ = corev1.PodReady)) = some c ∧
        c.Status = corev1.ConditionTrue) ∧
    ((∀ c ∈ pod.Status.Conditions.getD [], c.Type_ ≠ corev1.PodReady) →
      IsPodReady pod = false) ∧
    (∀ c, (pod.Status.Conditions.getD []).find?
        (fun c => decide (c.Type_ = corev1.PodReady)) = some c →
      c.Status ≠ corev1.ConditionTrue → IsPodReady pod = false) := by
  have hcond : GetPodReadyCondition pod.Status
      = (pod.Status.Conditions.getD []).find? (fun c => decide (c.Type_ = corev1.PodReady)) := by
    obtain ⟨⟨conds⟩⟩ := pod
    cases conds with
    | none => rfl
    | some l =>
      simpa [GetPodReadyCondition, GetPodCondition, GetPodConditionFromList]
        using podConditionLoop_snd corev1.PodReady l 0
  refine ⟨rfl, ?_, ?_, ?_⟩
  · unfold IsPodReady IsPodReadyConditionTrue
    rw [hcond]
    cases (pod.Status.Conditions.getD []).find? (fun c => decide (c.Type_ = corev1.PodReady)) with
    | none => simp
    | some c => simp
  · intro hnone
    unfold IsPodReady IsPodReadyConditionTrue
    rw [hcond]
    have : (pod.Status.Conditions.getD []).find?
        (fun c => decide (c.Type_ = corev1.PodReady)) = none := by
      rw [List.find?_eq_none]
      intro x hx
      simpa using hnone x hx
    rw [this]
  · intro c hc hne
    unfold IsPodReady IsPodReadyConditionTrue
    rw [hcond, hc]
    simpa using hne

/-- Witness for C17: a pod whose first `Ready` condition is `True` is ready; one whose
first `Ready` condition is `Unknown` is not, whatever comes after; one with no conditions
is not. -/
theorem IsPodReady_iff_first_ready_true_witness :
    IsPodReady ⟨⟨some [⟨"Initialized", "True"⟩, ⟨"Ready", "True"⟩]⟩⟩ = true ∧
    IsPodReady ⟨⟨some [⟨"Ready", "Unknown"⟩, ⟨"Ready", "True"⟩]⟩⟩ = false ∧
    IsPodReady ⟨⟨some [⟨"Ready", "False"⟩]⟩⟩ = false ∧
    IsPodReady ⟨⟨none⟩⟩ = false :=
  ⟨(IsPodReady_iff_first_ready_true
      ⟨⟨some [⟨"Initialized", "True"⟩, ⟨"Ready", "True"⟩]⟩⟩).2.1.mpr
      ⟨⟨"Ready", "True"⟩, by decide, rfl⟩,
   by decide, by decide, by decide⟩

/-- The loop of `FindContainer` returns the first container of that name. -/
theorem findContainerLoop_eq_find (container : String) (l : List corev1.Container) :
    findContainerLoop container l = l.find? (fun c => decide (c.Name = container)) := by
  induction l with
  | nil => rfl
  | cons x l ih =>
    by_cases hx : x.Name = container
    · simp [findContainerLoop, hx]
    · simp [findContainerLoop, hx, ih]

/-- C19. `FindContainer` returns the first container of `spec.Containers` whose name is
the requested one, with a `nil` error; it returns no container and the error
`failed to find container <name>` exactly when no container has that name, an empty list
included; it never returns both a container and an error, nor neither. -/
theorem FindContainer_first_or_error (container : String) (spec : corev1.PodSpec) :
    (∀ c, spec.Containers.find? (fun c => decide (c.Name = container)) = some c →
      FindContainer container spec = (some c, none)) ∧
    (FindContainer container spec
        = (none, some (Error.Errorf ("failed to find container " ++ container))) ↔
      ∀ c ∈ spec.Containers, c.Name ≠ container) ∧
    ((FindContainer container spec).2 ≠ none ↔ ∀ c ∈ spec.Containers, c.Name ≠ container) ∧
    ((FindContainer container spec).1 = none ↔ (FindContainer container spec).2 ≠ none) ∧
    (∀ c, (FindContainer container spec).1 = some c → c ∈ spec.Containers ∧
      c.Name = container) := by
  have hnone : spec.Containers.find? (fun c => decide (c.Name = container)) = none ↔
      ∀ c ∈ spec.Containers, c.Name ≠ container := by
    rw [List.find?_eq_none]
    simp
  unfold FindContainer
  rw [findContainerLoop_eq_find]
  rcases hfind : spec.Containers.find? (fun c => decide (c.Name = container)) with _ | c0
  · rw [hfind] at hnone
    have hall := hnone.mp rfl
    simp only [hfind]
    refine ⟨by simp, by simpa using hall, by simpa using hall, by simp, by simp⟩
  · rw [hfind] at hnone
    simp only [hfind]
    have hsome := List.find?_some hfind
    have hmem := List.mem_of_find?_eq_some hfind
    have hex : ¬ ∀ c ∈ spec.Containers, c.Name ≠ container := fun hall =>
      hall c0 hmem (by simpa using hsome)
    refine ⟨by simp, by simpa using hex, by simpa using hex, by simp, ?_⟩
    intro c hc
    simp only [Option.some.injEq] at hc
    subst hc
    exact ⟨hmem, by simpa using hsome⟩

/-- Witness for C19: of two containers named `db`, the first is returned; a name that no
container has gives the error; so does an empty list. -/
theorem FindContainer_first_or_error_witness :
    FindContainer "db" ⟨[⟨"init", "busybox"⟩, ⟨"db", "cockroach:v21"⟩, ⟨"db", "other"⟩]⟩
      = (some ⟨"db", "cockroach:v21"⟩, none) ∧
    FindContainer "sidecar" ⟨[⟨"init", "busybox"⟩, ⟨"db", "cockroach:v21"⟩]⟩
      = (none, some (Error.Errorf "failed to find container sidecar")) ∧
    FindContainer "db" ⟨[]⟩ = (none, some (Error.Errorf "failed to find container db")) :=
  ⟨(FindContainer_first_or_error "db"
      ⟨[⟨"init", "busybox"⟩, ⟨"db", "cockroach:v21"⟩, ⟨"db", "other"⟩]⟩).1
      ⟨"db", "cockroach:v21"⟩ (by decide),
   by decide, by decide⟩

end kube

end CockroachOperator
